import Mathlib

set_option maxRecDepth 10000
set_option maxHeartbeats 1000000

/-!
Shallow embedding of `graphiti_core/search/neo4j_vector_search.py`.

Pure query-assembly code becomes Lean functions on strings and
insertion-ordered association lists (modelling Python dicts); the
attribute-based fallback tracker becomes explicit state passing on a
small record.  External collaborators that live outside this module
(the filter-predicate constructors, the return-projection fragments and
the index-name constants) are modelled from the spec where noted.
-/

/-- Parameter values appearing in a query parameter mapping: strings or
lists of strings (the only shapes this module ever binds). -/
inductive PValue where
  | str (s : String)
  | strList (l : List String)
deriving DecidableEq, Repr

/-- A parameter mapping, modelling a Python dict as an insertion-ordered
association list. -/
abbrev Params := List (String × PValue)

/-- Keys of a parameter mapping, in insertion order. -/
def keys (d : Params) : List String := d.map Prod.fst

/-- Python dict assignment `d[k] = v`: overwrite in place when the key
exists, else append at the end. -/
def dictInsert (d : Params) (k : String) (v : PValue) : Params :=
  if d.any (fun kv => kv.1 == k) then d.map (fun kv => if kv.1 == k then (k, v) else kv)
  else d ++ [(k, v)]

/-- Python dict merge, as in the source line building `params` from
`search_params` and `filter_params`: start from the first dict and assign
every item of the second in order. -/
def dictMerge (d1 d2 : Params) : Params :=
  d2.foldl (fun d kv => dictInsert d kv.1 kv.2) d1

/-- State the module attaches to a caller target object through the two
reflective attributes; absence of an attribute is `none`. -/
structure TargetState where
  vector_search_mode : Option String
  vector_search_fallback_logged : Option Bool
deriving DecidableEq, Repr

/-- A target object never touched by this module: neither attribute is set. -/
def freshTarget : TargetState :=
  { vector_search_mode := none, vector_search_fallback_logged := none }

/-- Embedding of `should_use_search_index`: read the mode attribute with
default `search` and compare against `fallback`. -/
def should_use_search_index (t : TargetState) : Bool :=
  (t.vector_search_mode.getD "search") != "fallback"

/-- Embedding of `mark_search_index_fallback`: returns the updated target
state together with the warning diagnostic emitted on this call, if any
(`some exc` models the single `logger.warning` carrying the cause). -/
def mark_search_index_fallback (t : TargetState) (exc : String) :
    TargetState × Option String :=
  let logged := t.vector_search_fallback_logged.getD false
  let step :=
    if !logged then
      ({ t with vector_search_fallback_logged := some true }, some exc)
    else (t, none)
  ({ step.1 with vector_search_mode := some "fallback" }, step.2)

/-- Embedding of `split_group_ids`: the Python guard
`group_ids and len(group_ids) == 1` holds exactly for `some [x]`. -/
def split_group_ids : Option (List String) → Option String × Option (List String)
  | some [x] => (some x, none)
  | gids => (none, gids)

/-- The backend selector passed to the filter collaborators. -/
inductive GraphProvider where
  | neo4j

/-- Modelled from the spec: `NEO4J_ENTITY_VECTOR_INDEX` is an opaque string
constant (defined in `graph_queries`, outside this module) naming the native
vector index for entity nodes; it is substituted verbatim into the text. -/
def NEO4J_ENTITY_VECTOR_INDEX : String := "entity_vector_index"

/-- Modelled from the spec: `NEO4J_COMMUNITY_VECTOR_INDEX` is an opaque
string constant naming the native vector index for community nodes. -/
def NEO4J_COMMUNITY_VECTOR_INDEX : String := "community_vector_index"

/-- Modelled from the spec: `NEO4J_EDGE_VECTOR_INDEX` is an opaque string
constant naming the native vector index for edges. -/
def NEO4J_EDGE_VECTOR_INDEX : String := "edge_vector_index"

/-- Modelled from the spec: `get_entity_node_return_query` (defined in
`node_db_queries`, outside this module) yields a projection clause over the
match variable `n`, with no `$`-placeholders of its own. -/
def get_entity_node_return_query : GraphProvider → String
  | GraphProvider.neo4j => "n.uuid AS uuid, n.name AS name, n.group_id AS group_id"

/-- Modelled from the spec: `COMMUNITY_NODE_RETURN` is a projection clause
over the match variable `c`, with no `$`-placeholders of its own. -/
def COMMUNITY_NODE_RETURN : String := "c.uuid AS uuid, c.name AS name, c.group_id AS group_id"

/-- Modelled from the spec: `get_entity_edge_return_query` yields a
projection clause over the match variables `e`, `n`, `m`, with no
`$`-placeholders of its own. -/
def get_entity_edge_return_query : GraphProvider → String
  | GraphProvider.neo4j => "e.uuid AS uuid, e.fact AS fact, e.group_id AS group_id"

/-- Python `sep.join(parts)`. -/
def pyJoin (sep : String) : List String → String
  | [] => ""
  | [x] => x
  | x :: xs => x ++ sep ++ pyJoin sep xs

/-- The lines shared verbatim by the node and edge assemblers building
`filter_query` from the accumulated predicate fragments. -/
def mk_filter_query : List String → String
  | [] => ""
  | filter_queries => " WHERE " ++ pyJoin " AND " filter_queries

/-- The lines shared verbatim by all three assemblers building
`score_filter` from `filter_query`. -/
def mk_score_filter (filter_query : String) : String :=
  if filter_query == "" then " WHERE score > $min_score"
  else filter_query ++ " AND score > $min_score"

/-- The query template of the node assembler: the source's concatenation of
string literals around `search_where` and `score_filter`. -/
def node_query_text (search_where score_filter : String) : String :=
  "\n        MATCH (n:Entity)\n        SEARCH n IN (\n            VECTOR INDEX "
    ++ NEO4J_ENTITY_VECTOR_INDEX
    ++ "\n            FOR $search_vector"
    ++ search_where
    ++ "\n            LIMIT $limit\n        ) SCORE AS score\n        "
    ++ score_filter
    ++ "\n        RETURN\n        "
    ++ get_entity_node_return_query GraphProvider.neo4j
    ++ "\n        ORDER BY score DESC\n        LIMIT $limit\n        "

/-- The query template of the community assembler. -/
def community_query_text (search_where score_filter : String) : String :=
  "\n        MATCH (c:Community)\n        SEARCH c IN (\n            VECTOR INDEX "
    ++ NEO4J_COMMUNITY_VECTOR_INDEX
    ++ "\n            FOR $search_vector"
    ++ search_where
    ++ "\n            LIMIT $limit\n        ) SCORE AS score\n        "
    ++ score_filter
    ++ "\n        RETURN\n        "
    ++ COMMUNITY_NODE_RETURN
    ++ "\n        ORDER BY score DESC\n        LIMIT $limit\n        "

/-- The query template of the edge assembler, including the re-match of the
full relationship pattern between the index lookup and the post-filter. -/
def edge_query_text (search_where score_filter : String) : String :=
  "\n        MATCH ()-[e:RELATES_TO]-()\n        SEARCH e IN (\n            VECTOR INDEX "
    ++ NEO4J_EDGE_VECTOR_INDEX
    ++ "\n            FOR $search_vector"
    ++ search_where
    ++ "\n            LIMIT $limit\n        ) SCORE AS score\n        WITH e, score\n        MATCH (n:Entity)-[e:RELATES_TO]->(m:Entity)\n        "
    ++ score_filter
    ++ "\n        RETURN\n        "
    ++ get_entity_edge_return_query GraphProvider.neo4j
    ++ "\n        ORDER BY score DESC\n        LIMIT $limit\n        "

/-- Embedding of `build_node_vector_search_query`.  The external filter
collaborator `node_search_filter_query_constructor` and its opaque
`SearchFilters` argument type are passed in explicitly, since they are
defined outside this module. -/
def build_node_vector_search_query {σ : Type}
    (node_search_filter_query_constructor : σ → GraphProvider → List String × Params)
    (search_filter : σ) (group_ids : Option (List String)) : String × Params :=
  let sp := split_group_ids group_ids
  let search_group_id := sp.1
  let post_group_ids := sp.2
  let fr := node_search_filter_query_constructor search_filter GraphProvider.neo4j
  let filter_queries :=
    match post_group_ids with
    | some _ => fr.1 ++ ["n.group_id IN $group_ids"]
    | none => fr.1
  let filter_params :=
    match post_group_ids with
    | some g => dictInsert fr.2 "group_ids" (PValue.strList g)
    | none => fr.2
  let score_filter := mk_score_filter (mk_filter_query filter_queries)
  let search_where :=
    match search_group_id with
    | some _ => " WHERE n.group_id = $group_id"
    | none => ""
  let search_params : Params :=
    match search_group_id with
    | some gid => [("group_id", PValue.str gid)]
    | none => []
  let query := node_query_text search_where score_filter
  (query, dictMerge search_params filter_params)

/-- Embedding of `build_community_vector_search_query`. -/
def build_community_vector_search_query
    (group_ids : Option (List String)) : String × Params :=
  let sp := split_group_ids group_ids
  let search_group_id := sp.1
  let post_group_ids := sp.2
  let filter_query :=
    match post_group_ids with
    | some _ => " WHERE c.group_id IN $group_ids"
    | none => ""
  let filter_params : Params :=
    match post_group_ids with
    | some g => [("group_ids", PValue.strList g)]
    | none => []
  let score_filter := mk_score_filter filter_query
  let search_where :=
    match search_group_id with
    | some _ => " WHERE c.group_id = $group_id"
    | none => ""
  let search_params : Params :=
    match search_group_id with
    | some gid => [("group_id", PValue.str gid)]
    | none => []
  let query := community_query_text search_where score_filter
  (query, dictMerge search_params filter_params)

/-- Embedding of `build_edge_vector_search_query`.  The external filter
collaborator `edge_search_filter_query_constructor` is passed in explicitly. -/
def build_edge_vector_search_query {σ : Type}
    (edge_search_filter_query_constructor : σ → GraphProvider → List String × Params)
    (search_filter : σ) (group_ids : Option (List String))
    (source_node_uuid : Option String) (target_node_uuid : Option String) :
    String × Params :=
  let sp := split_group_ids group_ids
  let search_group_id := sp.1
  let post_group_ids := sp.2
  let fr := edge_search_filter_query_constructor search_filter GraphProvider.neo4j
  let fq1 :=
    match post_group_ids with
    | some _ => fr.1 ++ ["e.group_id IN $group_ids"]
    | none => fr.1
  let fp1 :=
    match post_group_ids with
    | some g => dictInsert fr.2 "group_ids" (PValue.strList g)
    | none => fr.2
  let fq2 :=
    match group_ids, source_node_uuid with
    | some _, some _ => fq1 ++ ["n.uuid = $source_uuid"]
    | _, _ => fq1
  let fp2 :=
    match group_ids, source_node_uuid with
    | some _, some su => dictInsert fp1 "source_uuid" (PValue.str su)
    | _, _ => fp1
  let fq3 :=
    match group_ids, target_node_uuid with
    | some _, some _ => fq2 ++ ["m.uuid = $target_uuid"]
    | _, _ => fq2
  let fp3 :=
    match group_ids, target_node_uuid with
    | some _, some tu => dictInsert fp2 "target_uuid" (PValue.str tu)
    | _, _ => fp2
  let score_filter := mk_score_filter (mk_filter_query fq3)
  let search_where :=
    match search_group_id with
    | some _ => " WHERE e.group_id = $group_id"
    | none => ""
  let search_params : Params :=
    match search_group_id with
    | some gid => [("group_id", PValue.str gid)]
    | none => []
  let query := edge_query_text search_where score_filter
  (query, dictMerge search_params fp3)

/-- Modelled from the spec: a stand-in for the opaque `SearchFilters` value
carrying no constraints (an empty structured filter). -/
def emptySearchFilter : Unit := ()

/-- Modelled from the spec: on an empty structured filter the node filter
collaborator contributes no predicate fragments and no parameters. -/
def empty_node_filter_ctor : Unit → GraphProvider → List String × Params :=
  fun _ _ => ([], [])

/-- Modelled from the spec: on an empty structured filter the edge filter
collaborator contributes no predicate fragments and no parameters. -/
def empty_edge_filter_ctor : Unit → GraphProvider → List String × Params :=
  fun _ _ => ([], [])

def isNameChar (c : Char) : Bool := c.isAlphanum || c == '_'

def phFlush (acc : List Char) (out : List String) : List String :=
  if acc.isEmpty then out else out ++ [String.mk acc.reverse]

def phStep : Option (List Char) × List String → Char → Option (List Char) × List String
  | (none, out), c => (if c == '$' then some [] else none, out)
  | (some acc, out), c =>
      if isNameChar c then (some (c :: acc), out)
      else (if c == '$' then some [] else none, phFlush acc out)

def phRun (st : Option (List Char) × List String) (l : List Char) :
    Option (List Char) × List String := l.foldl phStep st

def phFinish : Option (List Char) × List String → List String
  | (none, out) => out
  | (some acc, out) => phFlush acc out

def phL (l : List Char) : List String := phFinish (phRun (none, []) l)

def placeholders (s : String) : List String := phL s.toList

def phState (s : String) : Option (List Char) := (phRun (none, []) s.toList).1

theorem phFlush_factor (acc : List Char) (out : List String) :
    phFlush acc out = out ++ phFlush acc [] := by
  unfold phFlush; cases acc <;> simp

theorem phFinish_factor (st : Option (List Char)) (out : List String) :
    phFinish (st, out) = out ++ phFinish (st, []) := by
  cases st with
  | none => simp [phFinish]
  | some acc => simp [phFinish]; exact phFlush_factor acc out

theorem phStep_factor (st : Option (List Char)) (out : List String) (c : Char) :
    phStep (st, out) c = ((phStep (st, []) c).1, out ++ (phStep (st, []) c).2) := by
  cases st with
  | none => simp [phStep]
  | some acc =>
      by_cases h : isNameChar c
      · simp [phStep, h]
      · simp [phStep, h]; exact phFlush_factor acc out

theorem phRun_factor (l : List Char) : ∀ (st : Option (List Char)) (out : List String),
    phRun (st, out) l = ((phRun (st, []) l).1, out ++ (phRun (st, []) l).2) := by
  induction l with
  | nil => intro st out; simp [phRun]
  | cons c l ih =>
      intro st out
      simp only [phRun, List.foldl_cons]
      rw [phStep_factor st out c]
      rcases h : phStep (st, []) c with ⟨s1, o1⟩
      have h1 := ih s1 (out ++ o1)
      have h2 := ih s1 o1
      simp only [phRun] at h1 h2
      rw [h1, h2]
      simp

theorem phRun_append (st : Option (List Char) × List String) (l1 l2 : List Char) :
    phRun st (l1 ++ l2) = phRun (phRun st l1) l2 :=
  List.foldl_append phStep st l1 l2

theorem phStep_nonname (st : Option (List Char)) (out : List String) (c : Char)
    (h : isNameChar c = false) :
    phStep (st, out) c =
      (if c == '$' then some [] else none, out ++ phFinish (st, [])) := by
  cases st with
  | none => simp [phStep, phFinish]
  | some acc => simp [phStep, h, phFinish]; exact phFlush_factor acc out

theorem phL_append_nonname (l1 : List Char) (c : Char) (l2 : List Char)
    (h : isNameChar c = false) :
    phL (l1 ++ c :: l2) = phL l1 ++ phL (c :: l2) := by
  unfold phL
  rw [phRun_append]
  rcases h1 : phRun (none, []) l1 with ⟨s1, o1⟩
  show phFinish (phRun (s1, o1) (c :: l2)) = phFinish (s1, o1) ++ _
  have step1 : phRun (s1, o1) (c :: l2) =
      phRun (if c == '$' then some [] else none, o1 ++ phFinish (s1, [])) l2 := by
    simp only [phRun, List.foldl_cons]
    rw [phStep_nonname s1 o1 c h]
  have step2 : phRun (none, ([] : List String)) (c :: l2) =
      phRun (if c == '$' then some [] else none, ([] : List String)) l2 := by
    simp only [phRun, List.foldl_cons, phStep]
  rw [step1, step2]
  rcases h2 : phRun ((if c == '$' then some [] else none), ([] : List String)) l2 with ⟨s2, o2⟩
  have := phRun_factor l2 (if c == '$' then some [] else none) (o1 ++ phFinish (s1, []))
  rw [h2] at this
  rw [this]
  rw [phFinish_factor s2 (o1 ++ phFinish (s1, []) ++ o2), phFinish_factor s1 o1,
    phFinish_factor s2 o2]
  simp

theorem phL_append_stateNone (l1 l2 : List Char)
    (h : (phRun (none, []) l1).1 = none) :
    phL (l1 ++ l2) = phL l1 ++ phL l2 := by
  unfold phL
  rw [phRun_append]
  rcases h1 : phRun (none, []) l1 with ⟨s1, o1⟩
  rw [h1] at h
  subst h
  show phFinish (phRun (none, o1) l2) = phFinish (none, o1) ++ _
  rcases h2 : phRun (none, ([] : List String)) l2 with ⟨s2, o2⟩
  have := phRun_factor l2 none o1
  rw [h2] at this
  rw [this]
  rw [phFinish_factor s2 (o1 ++ o2), phFinish_factor s2 o2]
  simp [phFinish]

theorem toList_append (a b : String) : (a ++ b).toList = a.toList ++ b.toList := by
  simp [String.toList]

theorem placeholders_append (a b : String) (c : Char)
    (h1 : b.toList.head? = some c) (h2 : isNameChar c = false) :
    placeholders (a ++ b) = placeholders a ++ placeholders b := by
  unfold placeholders
  rw [toList_append]
  rcases hb : b.toList with _ | ⟨c0, l⟩
  · rw [hb] at h1; simp at h1
  · rw [hb] at h1
    simp only [List.head?] at h1
    cases h1
    exact phL_append_nonname a.toList c l h2

theorem placeholders_append_stateNone (a b : String)
    (h : phState a = none) :
    placeholders (a ++ b) = placeholders a ++ placeholders b := by
  unfold placeholders
  rw [toList_append]
  exact phL_append_stateNone a.toList b.toList h

theorem head_toList_append (a b : String) (c : Char) (l : List Char)
    (h : a.toList = c :: l) : (a ++ b).toList.head? = some c := by
  rw [toList_append, h]; rfl

theorem placeholders_pyJoin (fqs : List String) :
    placeholders (pyJoin " AND " fqs) = fqs.flatMap placeholders := by
  induction fqs with
  | nil => decide
  | cons x xs ih =>
      cases xs with
      | nil => simp [pyJoin]
      | cons y t =>
          show placeholders (x ++ " AND " ++ pyJoin " AND " (y :: t)) = _
          rw [String.append_assoc]
          rw [placeholders_append x (" AND " ++ pyJoin " AND " (y :: t)) ' '
            (head_toList_append " AND " _ ' ' ['A', 'N', 'D', ' '] (by decide)) (by decide)]
          rw [placeholders_append_stateNone " AND " (pyJoin " AND " (y :: t)) (by decide)]
          rw [ih]
          have : placeholders " AND " = [] := by decide
          simp [this]

theorem ne_empty_of_append (a b : String) (c : Char) (l : List Char)
    (h : a.toList = c :: l) : ((a ++ b) == "") = false := by
  apply beq_eq_false_iff_ne.mpr
  intro hc
  have := congrArg String.toList hc
  rw [toList_append, h] at this
  simp [String.toList] at this

theorem placeholders_score_filter (fqs : List String) :
    placeholders (mk_score_filter (mk_filter_query fqs)) =
      fqs.flatMap placeholders ++ ["min_score"] := by
  cases fqs with
  | nil => decide
  | cons f t =>
      show placeholders (mk_score_filter (" WHERE " ++ pyJoin " AND " (f :: t))) = _
      unfold mk_score_filter
      rw [ne_empty_of_append " WHERE " _ ' ' ['W', 'H', 'E', 'R', 'E', ' '] (by decide)]
      simp only [Bool.false_eq_true, if_false]
      rw [String.append_assoc]
      rw [placeholders_append_stateNone " WHERE " _ (by decide)]
      rw [placeholders_append (pyJoin " AND " (f :: t)) " AND score > $min_score" ' '
        (by decide) (by decide)]
      rw [placeholders_pyJoin]
      have h1 : placeholders " WHERE " = [] := by decide
      have h2 : placeholders " AND score > $min_score" = ["min_score"] := by decide
      simp [h1, h2]

theorem keys_dictInsert (d : Params) (k : String) (v : PValue) (p : String) :
    p ∈ keys (dictInsert d k v) ↔ p ∈ keys d ∨ p = k := by
  unfold dictInsert keys
  by_cases h : d.any (fun kv => kv.1 == k)
  · simp only [h, if_true, List.map_map]
    have hmap : d.map (Prod.fst ∘ fun kv => if kv.1 == k then (k, v) else kv)
        = d.map Prod.fst := by
      apply List.map_congr_left
      intro a _
      by_cases hc : a.1 = k
      · simp [hc]
      · simp [hc]
    rw [hmap]
    have hk : k ∈ d.map Prod.fst := by
      rcases List.any_eq_true.mp h with ⟨kv, hkv, hbeq⟩
      exact List.mem_map.mpr ⟨kv, hkv, beq_iff_eq.mp hbeq⟩
    constructor
    · exact fun hp => Or.inl hp
    · rintro (hp | rfl)
      · exact hp
      · exact hk
  · simp [h]

theorem keys_dictMerge (d2 : Params) : ∀ (d1 : Params) (p : String),
    p ∈ keys (dictMerge d1 d2) ↔ p ∈ keys d1 ∨ p ∈ keys d2 := by
  induction d2 with
  | nil => intro d1 p; simp [dictMerge, keys]
  | cons kv t ih =>
      intro d1 p
      show p ∈ keys (dictMerge (dictInsert d1 kv.1 kv.2) t) ↔ _
      rw [ih (dictInsert d1 kv.1 kv.2) p]
      rw [keys_dictInsert]
      simp [keys]
      tauto

theorem head_append_of_head (a b : String) (c : Char)
    (h : a.toList.head? = some c) : (a ++ b).toList.head? = some c := by
  rw [toList_append]
  rcases ha : a.toList with _ | ⟨c0, l⟩
  · rw [ha] at h; simp at h
  · rw [ha] at h; simpa using h

theorem placeholders_assembled (X scoreF C : String)
    (hsf : scoreF.toList.head? = some ' ') (hC : C.toList.head? = some '\n') :
    placeholders (X ++ (scoreF ++ C)) =
      placeholders X ++ (placeholders scoreF ++ placeholders C) := by
  rw [placeholders_append X _ ' ' (head_append_of_head scoreF C ' ' hsf) (by decide)]
  rw [placeholders_append scoreF C '\n' hC (by decide)]

theorem score_filter_head (fqs : List String) :
    (mk_score_filter (mk_filter_query fqs)).toList.head? = some ' ' := by
  cases fqs with
  | nil => decide
  | cons f t =>
      show (mk_score_filter (" WHERE " ++ pyJoin " AND " (f :: t))).toList.head? = some ' '
      unfold mk_score_filter
      rw [ne_empty_of_append " WHERE " _ ' ' ['W', 'H', 'E', 'R', 'E', ' '] (by decide)]
      simp only [Bool.false_eq_true, if_false]
      apply head_append_of_head
      apply head_append_of_head
      decide

theorem score_filter_head_str (fq : String)
    (h : fq = "" ∨ fq.toList.head? = some ' ') :
    (mk_score_filter fq).toList.head? = some ' ' := by
  rcases h with rfl | h
  · decide
  · unfold mk_score_filter
    rcases hl : fq.toList with _ | ⟨c0, l⟩
    · rw [hl] at h; simp at h
    · rw [hl] at h
      have hne : (fq == "") = false := by
        apply beq_eq_false_iff_ne.mpr
        intro hc
        rw [hc] at hl
        simp [String.toList] at hl
      rw [hne]
      simp only [Bool.false_eq_true, if_false]
      exact head_append_of_head fq _ ' ' (by rw [hl]; simpa using h)

/-- The string `needle` occurs contiguously inside `hay`. -/
abbrev containsSub (needle hay : String) : Prop :=
  needle.toList <:+: hay.toList

theorem containsSub_append_right (n a b : String) (h : containsSub n a) :
    containsSub n (a ++ b) := by
  show n.toList <:+: (a ++ b).toList
  rw [toList_append]
  exact h.trans ⟨[], b.toList, by simp⟩

theorem containsSub_append_left (n a b : String) (h : containsSub n b) :
    containsSub n (a ++ b) := by
  show n.toList <:+: (a ++ b).toList
  rw [toList_append]
  exact h.trans ⟨a.toList, [], by simp⟩

theorem containsSub_self (n : String) : containsSub n n := List.infix_rfl

theorem containsSub_pyJoin (x : String) (sep : String) (l : List String)
    (h : x ∈ l) : containsSub x (pyJoin sep l) := by
  induction l with
  | nil => cases h
  | cons y ys ih =>
      cases ys with
      | nil =>
          rcases List.mem_singleton.mp h with rfl
          exact containsSub_self x
      | cons z zs =>
          show containsSub x (y ++ sep ++ pyJoin sep (z :: zs))
          rcases List.mem_cons.mp h with rfl | hm
          · exact containsSub_append_right _ _ _
              (containsSub_append_right _ _ _ (containsSub_self x))
          · exact containsSub_append_left _ _ _ (ih hm)

theorem containsSub_score_filter (x : String) (fqs : List String) (h : x ∈ fqs) :
    containsSub x (mk_score_filter (mk_filter_query fqs)) := by
  cases fqs with
  | nil => cases h
  | cons f t =>
      show containsSub x (mk_score_filter (" WHERE " ++ pyJoin " AND " (f :: t)))
      unfold mk_score_filter
      rw [ne_empty_of_append " WHERE " _ ' ' ['W', 'H', 'E', 'R', 'E', ' '] (by decide)]
      simp only [Bool.false_eq_true, if_false]
      exact containsSub_append_right _ _ _
        (containsSub_append_left _ _ _ (containsSub_pyJoin x " AND " (f :: t) h))

theorem containsSub_node_scoreF (x sw sf : String) (h : containsSub x sf) :
    containsSub x (node_query_text sw sf) := by
  unfold node_query_text
  exact containsSub_append_right _ _ _ (containsSub_append_right _ _ _
    (containsSub_append_right _ _ _ (containsSub_append_left _ _ _ h)))

theorem containsSub_community_scoreF (x sw sf : String) (h : containsSub x sf) :
    containsSub x (community_query_text sw sf) := by
  unfold community_query_text
  exact containsSub_append_right _ _ _ (containsSub_append_right _ _ _
    (containsSub_append_right _ _ _ (containsSub_append_left _ _ _ h)))

theorem containsSub_edge_scoreF (x sw sf : String) (h : containsSub x sf) :
    containsSub x (edge_query_text sw sf) := by
  unfold edge_query_text
  exact containsSub_append_right _ _ _ (containsSub_append_right _ _ _
    (containsSub_append_right _ _ _ (containsSub_append_left _ _ _ h)))

theorem containsSub_node_head (x sw sf : String)
    (h : containsSub x
      ((("\n        MATCH (n:Entity)\n        SEARCH n IN (\n            VECTOR INDEX "
        ++ NEO4J_ENTITY_VECTOR_INDEX) ++ "\n            FOR $search_vector") ++ sw)) :
    containsSub x (node_query_text sw sf) := by
  unfold node_query_text
  exact containsSub_append_right _ _ _ (containsSub_append_right _ _ _
    (containsSub_append_right _ _ _ (containsSub_append_right _ _ _
      (containsSub_append_right _ _ _ h))))

theorem containsSub_community_head (x sw sf : String)
    (h : containsSub x
      ((("\n        MATCH (c:Community)\n        SEARCH c IN (\n            VECTOR INDEX "
        ++ NEO4J_COMMUNITY_VECTOR_INDEX) ++ "\n            FOR $search_vector") ++ sw)) :
    containsSub x (community_query_text sw sf) := by
  unfold community_query_text
  exact containsSub_append_right _ _ _ (containsSub_append_right _ _ _
    (containsSub_append_right _ _ _ (containsSub_append_right _ _ _
      (containsSub_append_right _ _ _ h))))

theorem containsSub_edge_head (x sw sf : String)
    (h : containsSub x
      ((("\n        MATCH ()-[e:RELATES_TO]-()\n        SEARCH e IN (\n            VECTOR INDEX "
        ++ NEO4J_EDGE_VECTOR_INDEX) ++ "\n            FOR $search_vector") ++ sw)) :
    containsSub x (edge_query_text sw sf) := by
  unfold edge_query_text
  exact containsSub_append_right _ _ _ (containsSub_append_right _ _ _
    (containsSub_append_right _ _ _ (containsSub_append_right _ _ _
      (containsSub_append_right _ _ _ h))))

theorem containsSub_node_tail (x sw sf : String)
    (h : containsSub x "\n        ORDER BY score DESC\n        LIMIT $limit\n        ") :
    containsSub x (node_query_text sw sf) := by
  unfold node_query_text
  exact containsSub_append_left _ _ _ h

theorem containsSub_community_tail (x sw sf : String)
    (h : containsSub x "\n        ORDER BY score DESC\n        LIMIT $limit\n        ") :
    containsSub x (community_query_text sw sf) := by
  unfold community_query_text
  exact containsSub_append_left _ _ _ h

theorem containsSub_edge_tail (x sw sf : String)
    (h : containsSub x "\n        ORDER BY score DESC\n        LIMIT $limit\n        ") :
    containsSub x (edge_query_text sw sf) := by
  unfold edge_query_text
  exact containsSub_append_left _ _ _ h

theorem containsSub_min_score (fq : String) :
    containsSub "$min_score" (mk_score_filter fq) := by
  unfold mk_score_filter
  by_cases h : (fq == "") = true
  · rw [if_pos h]; decide
  · rw [if_neg h]
    exact containsSub_append_left _ _ _ (by decide)

theorem placeholders_node_text (sw sf : String)
    (hsw : sw = "" ∨ sw = " WHERE n.group_id = $group_id")
    (hsf : sf.toList.head? = some ' ') :
    placeholders (node_query_text sw sf) =
      ["search_vector"] ++ placeholders sw ++ ["limit"] ++ placeholders sf ++ ["limit"] := by
  have hC : ("\n        RETURN\n        "
      ++ (get_entity_node_return_query GraphProvider.neo4j
        ++ "\n        ORDER BY score DESC\n        LIMIT $limit\n        ")).toList.head?
      = some '\n' := by decide
  rcases hsw with rfl | rfl
  · have e : node_query_text "" sf =
        ("\n        MATCH (n:Entity)\n        SEARCH n IN (\n            VECTOR INDEX "
          ++ (NEO4J_ENTITY_VECTOR_INDEX
          ++ ("\n            FOR $search_vector"
          ++ ("" ++ "\n            LIMIT $limit\n        ) SCORE AS score\n        "))))
        ++ (sf ++ ("\n        RETURN\n        "
          ++ (get_entity_node_return_query GraphProvider.neo4j
          ++ "\n        ORDER BY score DESC\n        LIMIT $limit\n        "))) := by
      simp [node_query_text, String.append_assoc]
    rw [e, placeholders_assembled _ _ _ hsf hC]
    have h1 : placeholders ("\n        MATCH (n:Entity)\n        SEARCH n IN (\n            VECTOR INDEX "
        ++ (NEO4J_ENTITY_VECTOR_INDEX
        ++ ("\n            FOR $search_vector"
        ++ ("" ++ "\n            LIMIT $limit\n        ) SCORE AS score\n        "))))
        = ["search_vector", "limit"] := by decide
    have h2 : placeholders ("\n        RETURN\n        "
        ++ (get_entity_node_return_query GraphProvider.neo4j
        ++ "\n        ORDER BY score DESC\n        LIMIT $limit\n        ")) = ["limit"] := by decide
    have h3 : placeholders "" = [] := by decide
    rw [h1, h2, h3]
    simp
  · have e : node_query_text " WHERE n.group_id = $group_id" sf =
        ("\n        MATCH (n:Entity)\n        SEARCH n IN (\n            VECTOR INDEX "
          ++ (NEO4J_ENTITY_VECTOR_INDEX
          ++ ("\n            FOR $search_vector"
          ++ (" WHERE n.group_id = $group_id"
          ++ "\n            LIMIT $limit\n        ) SCORE AS score\n        "))))
        ++ (sf ++ ("\n        RETURN\n        "
          ++ (get_entity_node_return_query GraphProvider.neo4j
          ++ "\n        ORDER BY score DESC\n        LIMIT $limit\n        "))) := by
      simp [node_query_text, String.append_assoc]
    rw [e, placeholders_assembled _ _ _ hsf hC]
    have h1 : placeholders ("\n        MATCH (n:Entity)\n        SEARCH n IN (\n            VECTOR INDEX "
        ++ (NEO4J_ENTITY_VECTOR_INDEX
        ++ ("\n            FOR $search_vector"
        ++ (" WHERE n.group_id = $group_id"
        ++ "\n            LIMIT $limit\n        ) SCORE AS score\n        "))))
        = ["search_vector", "group_id", "limit"] := by decide
    have h2 : placeholders ("\n        RETURN\n        "
        ++ (get_entity_node_return_query GraphProvider.neo4j
        ++ "\n        ORDER BY score DESC\n        LIMIT $limit\n        ")) = ["limit"] := by decide
    have h3 : placeholders " WHERE n.group_id = $group_id" = ["group_id"] := by decide
    rw [h1, h2, h3]
    simp

theorem placeholders_community_text (sw sf : String)
    (hsw : sw = "" ∨ sw = " WHERE c.group_id = $group_id")
    (hsf : sf.toList.head? = some ' ') :
    placeholders (community_query_text sw sf) =
      ["search_vector"] ++ placeholders sw ++ ["limit"] ++ placeholders sf ++ ["limit"] := by
  have hC : ("\n        RETURN\n        "
      ++ (COMMUNITY_NODE_RETURN
        ++ "\n        ORDER BY score DESC\n        LIMIT $limit\n        ")).toList.head?
      = some '\n' := by decide
  rcases hsw with rfl | rfl
  · have e : community_query_text "" sf =
        ("\n        MATCH (c:Community)\n        SEARCH c IN (\n            VECTOR INDEX "
          ++ (NEO4J_COMMUNITY_VECTOR_INDEX
          ++ ("\n            FOR $search_vector"
          ++ ("" ++ "\n            LIMIT $limit\n        ) SCORE AS score\n        "))))
        ++ (sf ++ ("\n        RETURN\n        "
          ++ (COMMUNITY_NODE_RETURN
          ++ "\n        ORDER BY score DESC\n        LIMIT $limit\n        "))) := by
      simp [community_query_text, String.append_assoc]
    rw [e, placeholders_assembled _ _ _ hsf hC]
    have h1 : placeholders ("\n        MATCH (c:Community)\n        SEARCH c IN (\n            VECTOR INDEX "
        ++ (NEO4J_COMMUNITY_VECTOR_INDEX
        ++ ("\n            FOR $search_vector"
        ++ ("" ++ "\n            LIMIT $limit\n        ) SCORE AS score\n        "))))
        = ["search_vector", "limit"] := by decide
    have h2 : placeholders ("\n        RETURN\n        "
        ++ (COMMUNITY_NODE_RETURN
        ++ "\n        ORDER BY score DESC\n        LIMIT $limit\n        ")) = ["limit"] := by decide
    have h3 : placeholders "" = [] := by decide
    rw [h1, h2, h3]
    simp
  · have e : community_query_text " WHERE c.group_id = $group_id" sf =
        ("\n        MATCH (c:Community)\n        SEARCH c IN (\n            VECTOR INDEX "
          ++ (NEO4J_COMMUNITY_VECTOR_INDEX
          ++ ("\n            FOR $search_vector"
          ++ (" WHERE c.group_id = $group_id"
          ++ "\n            LIMIT $limit\n        ) SCORE AS score\n        "))))
        ++ (sf ++ ("\n        RETURN\n        "
          ++ (COMMUNITY_NODE_RETURN
          ++ "\n        ORDER BY score DESC\n        LIMIT $limit\n        "))) := by
      simp [community_query_text, String.append_assoc]
    rw [e, placeholders_assembled _ _ _ hsf hC]
    have h1 : placeholders ("\n        MATCH (c:Community)\n        SEARCH c IN (\n            VECTOR INDEX "
        ++ (NEO4J_COMMUNITY_VECTOR_INDEX
        ++ ("\n            FOR $search_vector"
        ++ (" WHERE c.group_id = $group_id"
        ++ "\n            LIMIT $limit\n        ) SCORE AS score\n        "))))
        = ["search_vector", "group_id", "limit"] := by decide
    have h2 : placeholders ("\n        RETURN\n        "
        ++ (COMMUNITY_NODE_RETURN
        ++ "\n        ORDER BY score DESC\n        LIMIT $limit\n        ")) = ["limit"] := by decide
    have h3 : placeholders " WHERE c.group_id = $group_id" = ["group_id"] := by decide
    rw [h1, h2, h3]
    simp

theorem placeholders_edge_text (sw sf : String)
    (hsw : sw = "" ∨ sw = " WHERE e.group_id = $group_id")
    (hsf : sf.toList.head? = some ' ') :
    placeholders (edge_query_text sw sf) =
      ["search_vector"] ++ placeholders sw ++ ["limit"] ++ placeholders sf ++ ["limit"] := by
  have hC : ("\n        RETURN\n        "
      ++ (get_entity_edge_return_query GraphProvider.neo4j
        ++ "\n        ORDER BY score DESC\n        LIMIT $limit\n        ")).toList.head?
      = some '\n' := by decide
  rcases hsw with rfl | rfl
  · have e : edge_query_text "" sf =
        ("\n        MATCH ()-[e:RELATES_TO]-()\n        SEARCH e IN (\n            VECTOR INDEX "
          ++ (NEO4J_EDGE_VECTOR_INDEX
          ++ ("\n            FOR $search_vector"
          ++ ("" ++ "\n            LIMIT $limit\n        ) SCORE AS score\n        WITH e, score\n        MATCH (n:Entity)-[e:RELATES_TO]->(m:Entity)\n        "))))
        ++ (sf ++ ("\n        RETURN\n        "
          ++ (get_entity_edge_return_query GraphProvider.neo4j
          ++ "\n        ORDER BY score DESC\n        LIMIT $limit\n        "))) := by
      simp [edge_query_text, String.append_assoc]
    rw [e, placeholders_assembled _ _ _ hsf hC]
    have h1 : placeholders ("\n        MATCH ()-[e:RELATES_TO]-()\n        SEARCH e IN (\n            VECTOR INDEX "
        ++ (NEO4J_EDGE_VECTOR_INDEX
        ++ ("\n            FOR $search_vector"
        ++ ("" ++ "\n            LIMIT $limit\n        ) SCORE AS score\n        WITH e, score\n        MATCH (n:Entity)-[e:RELATES_TO]->(m:Entity)\n        "))))
        = ["search_vector", "limit"] := by decide
    have h2 : placeholders ("\n        RETURN\n        "
        ++ (get_entity_edge_return_query GraphProvider.neo4j
        ++ "\n        ORDER BY score DESC\n        LIMIT $limit\n        ")) = ["limit"] := by decide
    have h3 : placeholders "" = [] := by decide
    rw [h1, h2, h3]
    simp
  · have e : edge_query_text " WHERE e.group_id = $group_id" sf =
        ("\n        MATCH ()-[e:RELATES_TO]-()\n        SEARCH e IN (\n            VECTOR INDEX "
          ++ (NEO4J_EDGE_VECTOR_INDEX
          ++ ("\n            FOR $search_vector"
          ++ (" WHERE e.group_id = $group_id"
          ++ "\n            LIMIT $limit\n        ) SCORE AS score\n        WITH e, score\n        MATCH (n:Entity)-[e:RELATES_TO]->(m:Entity)\n        "))))
        ++ (sf ++ ("\n        RETURN\n        "
          ++ (get_entity_edge_return_query GraphProvider.neo4j
          ++ "\n        ORDER BY score DESC\n        LIMIT $limit\n        "))) := by
      simp [edge_query_text, String.append_assoc]
    rw [e, placeholders_assembled _ _ _ hsf hC]
    have h1 : placeholders ("\n        MATCH ()-[e:RELATES_TO]-()\n        SEARCH e IN (\n            VECTOR INDEX "
        ++ (NEO4J_EDGE_VECTOR_INDEX
        ++ ("\n            FOR $search_vector"
        ++ (" WHERE e.group_id = $group_id"
        ++ "\n            LIMIT $limit\n        ) SCORE AS score\n        WITH e, score\n        MATCH (n:Entity)-[e:RELATES_TO]->(m:Entity)\n        "))))
        = ["search_vector", "group_id", "limit"] := by decide
    have h2 : placeholders ("\n        RETURN\n        "
        ++ (get_entity_edge_return_query GraphProvider.neo4j
        ++ "\n        ORDER BY score DESC\n        LIMIT $limit\n        ")) = ["limit"] := by decide
    have h3 : placeholders " WHERE e.group_id = $group_id" = ["group_id"] := by decide
    rw [h1, h2, h3]
    simp

/-- C1 (amended): `split_group_ids` maps an absent sequence to
`(absent, absent)`, a singleton to `(that id, absent)`, and any present
sequence whose length is not 1 — including the empty list — to
`(absent, the original sequence)`.  The original claim's clause that a
present empty sequence yields `(absent, absent)` fails on the code. -/
theorem C1_split_group_ids :
    split_group_ids none = (none, none) ∧
    (∀ x : String, split_group_ids (some [x]) = (some x, none)) ∧
    (∀ l : List String, l.length ≠ 1 → split_group_ids (some l) = (none, some l)) := by
  refine ⟨rfl, fun x => rfl, fun l h => ?_⟩
  match l with
  | [] => rfl
  | [x] => exact absurd rfl h
  | x :: y :: t => rfl

/-- C1 counterexample: on the present empty sequence the splitter returns
the empty sequence as the post-filter component, not `(absent, absent)`
as the claim states. -/
theorem C1_cex : split_group_ids (some ([] : List String)) ≠ (none, none) := by
  decide

/-- C1 witness: the amended theorem applied at the concrete two-element list. -/
theorem C1_wit :
    (["a", "b"] : List String).length ≠ 1 ∧
      split_group_ids (some ["a", "b"]) = (none, some ["a", "b"]) :=
  ⟨by decide, C1_split_group_ids.2.2 ["a", "b"] (by decide)⟩

/-- C5: on a fresh target `should_use_search_index` is true; after a first
`mark_search_index_fallback` call it is false and exactly one warning
diagnostic (carrying the cause) was emitted; a second call emits no further
diagnostic and the target stays in fallback mode. -/
theorem C5_fallback_tracker (exc1 exc2 : String) :
    should_use_search_index freshTarget = true ∧
    (mark_search_index_fallback freshTarget exc1).2 = some exc1 ∧
    should_use_search_index (mark_search_index_fallback freshTarget exc1).1 = false ∧
    (mark_search_index_fallback (mark_search_index_fallback freshTarget exc1).1 exc2).2 = none ∧
    should_use_search_index
      (mark_search_index_fallback (mark_search_index_fallback freshTarget exc1).1 exc2).1
      = false :=
  ⟨rfl, rfl, rfl, rfl, rfl⟩

/-- C8: each assembler is a pure function of its inputs, so calling it twice
with identical inputs (the filter collaborator being a fixed function) yields
identical text and an equal parameter mapping. -/
theorem C8_deterministic {σ τ : Type}
    (nctor : σ → GraphProvider → List String × Params) (nsf : σ)
    (ector : τ → GraphProvider → List String × Params) (esf : τ)
    (g : Option (List String)) (su tu : Option String) :
    build_node_vector_search_query nctor nsf g = build_node_vector_search_query nctor nsf g ∧
    build_community_vector_search_query g = build_community_vector_search_query g ∧
    build_edge_vector_search_query ector esf g su tu
      = build_edge_vector_search_query ector esf g su tu :=
  ⟨rfl, rfl, rfl⟩

/-- C3 counterexample: for the node search with a single scope id and the
empty filter, `min_score` is not a key of the returned parameter mapping,
contradicting the claimed mapping that includes `min_score: 0.5`. -/
theorem C3_cex :
    "min_score" ∉
      keys (build_node_vector_search_query empty_node_filter_ctor () (some ["tenantA"])).2 := by
  decide

/-- C3 (amended): for the node search with `group_ids = ["tenantA"]` and the
empty filter, the text carries the index-scope clause binding `$group_id`
inside the vector lookup (between `FOR $search_vector` and the inner
`LIMIT $limit`), no `$group_ids` membership post-filter appears, `$min_score`
is referenced in the text, and the parameter mapping is exactly
`group_id = "tenantA"` plus the (empty) filter contribution. -/
theorem C3_single_scope :
    (build_node_vector_search_query empty_node_filter_ctor () (some ["tenantA"])).2
      = [("group_id", PValue.str "tenantA")] ∧
    containsSub "FOR $search_vector WHERE n.group_id = $group_id\n            LIMIT $limit"
      (build_node_vector_search_query empty_node_filter_ctor () (some ["tenantA"])).1 ∧
    ¬ containsSub "$group_ids"
      (build_node_vector_search_query empty_node_filter_ctor () (some ["tenantA"])).1 ∧
    containsSub "$min_score"
      (build_node_vector_search_query empty_node_filter_ctor () (some ["tenantA"])).1 :=
  ⟨by decide, by decide, by decide, by decide⟩

/-- C2 counterexample: the node assembler returns different text and
parameters for the empty scope list and for the absent scope. -/
theorem C2_cex :
    build_node_vector_search_query empty_node_filter_ctor () (some []) ≠
      build_node_vector_search_query empty_node_filter_ctor () none := by
  decide

/-- C2 (amended): an empty scope list is not treated as an absent one.  With
`group_ids = []` every assembler appends the group-membership post-filter and
binds the `group_ids` parameter (to the empty list), and the edge assembler's
endpoint gate opens; with `group_ids` absent no group clause appears and no
group parameter is bound. -/
theorem C2_empty_scope {σ τ : Type}
    (nctor : σ → GraphProvider → List String × Params) (nsf : σ)
    (ector : τ → GraphProvider → List String × Params) (esf : τ)
    (su tu : Option String) :
    ("group_ids" ∈ keys (build_node_vector_search_query nctor nsf (some [])).2 ∧
      containsSub "n.group_id IN $group_ids"
        (build_node_vector_search_query nctor nsf (some [])).1) ∧
    ("group_ids" ∈ keys (build_community_vector_search_query (some [])).2 ∧
      containsSub "c.group_id IN $group_ids"
        (build_community_vector_search_query (some [])).1) ∧
    ("group_ids" ∈ keys (build_edge_vector_search_query ector esf (some []) su tu).2 ∧
      containsSub "e.group_id IN $group_ids"
        (build_edge_vector_search_query ector esf (some []) su tu).1) ∧
    ((build_node_vector_search_query empty_node_filter_ctor () none).2 = [] ∧
      ¬ containsSub "group_ids"
        (build_node_vector_search_query empty_node_filter_ctor () none).1) ∧
    ((build_community_vector_search_query none).2 = [] ∧
      ¬ containsSub "group_ids" (build_community_vector_search_query none).1) ∧
    ((build_edge_vector_search_query empty_edge_filter_ctor () none (some "x") none).2 = [] ∧
      ¬ containsSub "group_ids"
        (build_edge_vector_search_query empty_edge_filter_ctor () none (some "x") none).1) := by
  refine ⟨⟨?_, ?_⟩, ⟨by decide, by decide⟩, ⟨?_, ?_⟩, ⟨by decide, by decide⟩,
    ⟨by decide, by decide⟩, ⟨by decide, by decide⟩⟩
  · show "group_ids" ∈ keys (dictMerge []
      (dictInsert (nctor nsf GraphProvider.neo4j).2 "group_ids" (PValue.strList [])))
    rw [keys_dictMerge, keys_dictInsert]
    simp
  · show containsSub _ (node_query_text "" (mk_score_filter (mk_filter_query
      ((nctor nsf GraphProvider.neo4j).1 ++ ["n.group_id IN $group_ids"]))))
    exact containsSub_node_scoreF _ _ _ (containsSub_score_filter _ _ (by simp))
  · rcases su with _ | s <;> rcases tu with _ | t
    · show "group_ids" ∈ keys (dictMerge []
        (dictInsert (ector esf GraphProvider.neo4j).2 "group_ids" (PValue.strList [])))
      rw [keys_dictMerge, keys_dictInsert]
      simp
    · show "group_ids" ∈ keys (dictMerge []
        (dictInsert (dictInsert (ector esf GraphProvider.neo4j).2 "group_ids"
          (PValue.strList [])) "target_uuid" (PValue.str t)))
      rw [keys_dictMerge, keys_dictInsert, keys_dictInsert]
      simp
    · show "group_ids" ∈ keys (dictMerge []
        (dictInsert (dictInsert (ector esf GraphProvider.neo4j).2 "group_ids"
          (PValue.strList [])) "source_uuid" (PValue.str s)))
      rw [keys_dictMerge, keys_dictInsert, keys_dictInsert]
      simp
    · show "group_ids" ∈ keys (dictMerge []
        (dictInsert (dictInsert (dictInsert (ector esf GraphProvider.neo4j).2 "group_ids"
          (PValue.strList [])) "source_uuid" (PValue.str s)) "target_uuid" (PValue.str t)))
      rw [keys_dictMerge, keys_dictInsert, keys_dictInsert, keys_dictInsert]
      simp
  · rcases su with _ | s <;> rcases tu with _ | t
    · show containsSub _ (edge_query_text "" (mk_score_filter (mk_filter_query
        ((ector esf GraphProvider.neo4j).1 ++ ["e.group_id IN $group_ids"]))))
      exact containsSub_edge_scoreF _ _ _ (containsSub_score_filter _ _ (by simp))
    · show containsSub _ (edge_query_text "" (mk_score_filter (mk_filter_query
        ((ector esf GraphProvider.neo4j).1 ++ ["e.group_id IN $group_ids"]
          ++ ["m.uuid = $target_uuid"]))))
      exact containsSub_edge_scoreF _ _ _ (containsSub_score_filter _ _ (by simp))
    · show containsSub _ (edge_query_text "" (mk_score_filter (mk_filter_query
        ((ector esf GraphProvider.neo4j).1 ++ ["e.group_id IN $group_ids"]
          ++ ["n.uuid = $source_uuid"]))))
      exact containsSub_edge_scoreF _ _ _ (containsSub_score_filter _ _ (by simp))
    · show containsSub _ (edge_query_text "" (mk_score_filter (mk_filter_query
        ((ector esf GraphProvider.neo4j).1 ++ ["e.group_id IN $group_ids"]
          ++ ["n.uuid = $source_uuid"] ++ ["m.uuid = $target_uuid"]))))
      exact containsSub_edge_scoreF _ _ _ (containsSub_score_filter _ _ (by simp))

/-- C10: with `group_ids = []` (present but empty) the edge assembler's
endpoint gate is open: a supplied source (resp. target) endpoint id yields
the corresponding equality predicate in the text and binds
`source_uuid` (resp. `target_uuid`) in the parameter mapping. -/
theorem C10_empty_scope_endpoints {τ : Type}
    (ector : τ → GraphProvider → List String × Params) (esf : τ)
    (s t : String) (su tu : Option String) :
    containsSub "n.uuid = $source_uuid"
      (build_edge_vector_search_query ector esf (some []) (some s) tu).1 ∧
    "source_uuid" ∈ keys (build_edge_vector_search_query ector esf (some []) (some s) tu).2 ∧
    containsSub "m.uuid = $target_uuid"
      (build_edge_vector_search_query ector esf (some []) su (some t)).1 ∧
    "target_uuid" ∈ keys (build_edge_vector_search_query ector esf (some []) su (some t)).2 ∧
    (build_edge_vector_search_query empty_edge_filter_ctor () (some []) (some "x") none).2
      = [("group_ids", PValue.strList []), ("source_uuid", PValue.str "x")] := by
  refine ⟨?_, ?_, ?_, ?_, by decide⟩
  · rcases tu with _ | t0
    · show containsSub _ (edge_query_text "" (mk_score_filter (mk_filter_query
        ((ector esf GraphProvider.neo4j).1 ++ ["e.group_id IN $group_ids"]
          ++ ["n.uuid = $source_uuid"]))))
      exact containsSub_edge_scoreF _ _ _ (containsSub_score_filter _ _ (by simp))
    · show containsSub _ (edge_query_text "" (mk_score_filter (mk_filter_query
        ((ector esf GraphProvider.neo4j).1 ++ ["e.group_id IN $group_ids"]
          ++ ["n.uuid = $source_uuid"] ++ ["m.uuid = $target_uuid"]))))
      exact containsSub_edge_scoreF _ _ _ (containsSub_score_filter _ _ (by simp))
  · rcases tu with _ | t0
    · show "source_uuid" ∈ keys (dictMerge []
        (dictInsert (dictInsert (ector esf GraphProvider.neo4j).2 "group_ids"
          (PValue.strList [])) "source_uuid" (PValue.str s)))
      rw [keys_dictMerge, keys_dictInsert, keys_dictInsert]
      simp
    · show "source_uuid" ∈ keys (dictMerge []
        (dictInsert (dictInsert (dictInsert (ector esf GraphProvider.neo4j).2 "group_ids"
          (PValue.strList [])) "source_uuid" (PValue.str s)) "target_uuid" (PValue.str t0)))
      rw [keys_dictMerge, keys_dictInsert, keys_dictInsert, keys_dictInsert]
      simp
  · rcases su with _ | s0
    · show containsSub _ (edge_query_text "" (mk_score_filter (mk_filter_query
        ((ector esf GraphProvider.neo4j).1 ++ ["e.group_id IN $group_ids"]
          ++ ["m.uuid = $target_uuid"]))))
      exact containsSub_edge_scoreF _ _ _ (containsSub_score_filter _ _ (by simp))
    · show containsSub _ (edge_query_text "" (mk_score_filter (mk_filter_query
        ((ector esf GraphProvider.neo4j).1 ++ ["e.group_id IN $group_ids"]
          ++ ["n.uuid = $source_uuid"] ++ ["m.uuid = $target_uuid"]))))
      exact containsSub_edge_scoreF _ _ _ (containsSub_score_filter _ _ (by simp))
  · rcases su with _ | s0
    · show "target_uuid" ∈ keys (dictMerge []
        (dictInsert (dictInsert (ector esf GraphProvider.neo4j).2 "group_ids"
          (PValue.strList [])) "target_uuid" (PValue.str t)))
      rw [keys_dictMerge, keys_dictInsert, keys_dictInsert]
      simp
    · show "target_uuid" ∈ keys (dictMerge []
        (dictInsert (dictInsert (dictInsert (ector esf GraphProvider.neo4j).2 "group_ids"
          (PValue.strList [])) "source_uuid" (PValue.str s0)) "target_uuid" (PValue.str t)))
      rw [keys_dictMerge, keys_dictInsert, keys_dictInsert, keys_dictInsert]
      simp

/-- C6: with `group_ids` entirely absent the edge assembler ignores the
endpoint ids: the output equals the output with no endpoint ids at all, no
`source_uuid`/`target_uuid` parameter is bound (given that the filter
collaborator does not bind those reserved names itself), and in particular
with `source_node_uuid = "x"` no endpoint predicate appears in the text. -/
theorem C6_absent_scope_gate {τ : Type}
    (ector : τ → GraphProvider → List String × Params) (esf : τ)
    (su tu : Option String)
    (hs : "source_uuid" ∉ keys (ector esf GraphProvider.neo4j).2)
    (ht : "target_uuid" ∉ keys (ector esf GraphProvider.neo4j).2) :
    build_edge_vector_search_query ector esf none su tu
      = build_edge_vector_search_query ector esf none none none ∧
    "source_uuid" ∉ keys (build_edge_vector_search_query ector esf none su tu).2 ∧
    "target_uuid" ∉ keys (build_edge_vector_search_query ector esf none su tu).2 ∧
    ¬ containsSub "$source_uuid"
      (build_edge_vector_search_query empty_edge_filter_ctor () none (some "x") none).1 := by
  have heq : build_edge_vector_search_query ector esf none su tu
      = build_edge_vector_search_query ector esf none none none := by
    rcases su with _ | s <;> rcases tu with _ | t <;> rfl
  refine ⟨heq, ?_, ?_, by decide⟩
  · rw [heq]
    intro hmem
    rw [show (build_edge_vector_search_query ector esf none none none).2
      = dictMerge [] (ector esf GraphProvider.neo4j).2 from rfl] at hmem
    rw [keys_dictMerge] at hmem
    rcases hmem with h | h
    · simp [keys] at h
    · exact hs h
  · rw [heq]
    intro hmem
    rw [show (build_edge_vector_search_query ector esf none none none).2
      = dictMerge [] (ector esf GraphProvider.neo4j).2 from rfl] at hmem
    rw [keys_dictMerge] at hmem
    rcases hmem with h | h
    · simp [keys] at h
    · exact ht h

/-- C6 witness: the theorem applied at the empty filter collaborator and
concrete endpoint ids. -/
theorem C6_wit :
    "source_uuid" ∉ keys ((empty_edge_filter_ctor () GraphProvider.neo4j).2) ∧
    "target_uuid" ∉ keys ((empty_edge_filter_ctor () GraphProvider.neo4j).2) ∧
    build_edge_vector_search_query empty_edge_filter_ctor () none (some "x") (some "y")
      = build_edge_vector_search_query empty_edge_filter_ctor () none none none :=
  ⟨by decide, by decide,
    (C6_absent_scope_gate empty_edge_filter_ctor () (some "x") (some "y")
      (by decide) (by decide)).1⟩

theorem node_text_shape {σ : Type}
    (nctor : σ → GraphProvider → List String × Params) (nsf : σ)
    (g : Option (List String)) :
    ∃ sw fqs, (sw = "" ∨ sw = " WHERE n.group_id = $group_id") ∧
      (build_node_vector_search_query nctor nsf g).1
        = node_query_text sw (mk_score_filter (mk_filter_query fqs)) := by
  rcases g with _ | l
  · exact ⟨"", _, Or.inl rfl, rfl⟩
  · rcases l with _ | ⟨x, xs⟩
    · exact ⟨"", _, Or.inl rfl, rfl⟩
    · rcases xs with _ | ⟨y, t⟩
      · exact ⟨" WHERE n.group_id = $group_id", _, Or.inr rfl, rfl⟩
      · exact ⟨"", _, Or.inl rfl, rfl⟩

theorem community_text_shape (g : Option (List String)) :
    ∃ sw fq, (sw = "" ∨ sw = " WHERE c.group_id = $group_id") ∧
      (fq = "" ∨ fq = " WHERE c.group_id IN $group_ids") ∧
      (build_community_vector_search_query g).1
        = community_query_text sw (mk_score_filter fq) := by
  rcases g with _ | l
  · exact ⟨"", "", Or.inl rfl, Or.inl rfl, rfl⟩
  · rcases l with _ | ⟨x, xs⟩
    · exact ⟨"", _, Or.inl rfl, Or.inr rfl, rfl⟩
    · rcases xs with _ | ⟨y, t⟩
      · exact ⟨" WHERE c.group_id = $group_id", "", Or.inr rfl, Or.inl rfl, rfl⟩
      · exact ⟨"", _, Or.inl rfl, Or.inr rfl, rfl⟩

theorem edge_text_shape {τ : Type}
    (ector : τ → GraphProvider → List String × Params) (esf : τ)
    (g : Option (List String)) (su tu : Option String) :
    ∃ sw fqs, (sw = "" ∨ sw = " WHERE e.group_id = $group_id") ∧
      (build_edge_vector_search_query ector esf g su tu).1
        = edge_query_text sw (mk_score_filter (mk_filter_query fqs)) := by
  rcases g with _ | l
  · rcases su with _ | s <;> rcases tu with _ | t <;> exact ⟨"", _, Or.inl rfl, rfl⟩
  · rcases l with _ | ⟨x, xs⟩
    · rcases su with _ | s <;> rcases tu with _ | t <;> exact ⟨"", _, Or.inl rfl, rfl⟩
    · rcases xs with _ | ⟨y, t2⟩
      · rcases su with _ | s <;> rcases tu with _ | t <;>
          exact ⟨" WHERE e.group_id = $group_id", _, Or.inr rfl, rfl⟩
      · rcases su with _ | s <;> rcases tu with _ | t <;> exact ⟨"", _, Or.inl rfl, rfl⟩

theorem keys_build_node_sub {σ : Type}
    (nctor : σ → GraphProvider → List String × Params) (nsf : σ)
    (g : Option (List String)) (p : String)
    (h : p ∈ keys (build_node_vector_search_query nctor nsf g).2) :
    p ∈ keys (nctor nsf GraphProvider.neo4j).2 ∨ p = "group_id" ∨ p = "group_ids" := by
  rcases g with _ | l
  · rw [show (build_node_vector_search_query nctor nsf none).2
      = dictMerge [] (nctor nsf GraphProvider.neo4j).2 from rfl, keys_dictMerge] at h
    rcases h with h | h
    · simp [keys] at h
    · exact Or.inl h
  · rcases l with _ | ⟨x, xs⟩
    · rw [show (build_node_vector_search_query nctor nsf (some [])).2
        = dictMerge [] (dictInsert (nctor nsf GraphProvider.neo4j).2 "group_ids"
          (PValue.strList [])) from rfl, keys_dictMerge, keys_dictInsert] at h
      rcases h with h | h | h
      · simp [keys] at h
      · exact Or.inl h
      · exact Or.inr (Or.inr h)
    · rcases xs with _ | ⟨y, t⟩
      · rw [show (build_node_vector_search_query nctor nsf (some [x])).2
          = dictMerge [("group_id", PValue.str x)] (nctor nsf GraphProvider.neo4j).2 from rfl,
          keys_dictMerge] at h
        rcases h with h | h
        · simp [keys] at h
          exact Or.inr (Or.inl h)
        · exact Or.inl h
      · rw [show (build_node_vector_search_query nctor nsf (some (x :: y :: t))).2
          = dictMerge [] (dictInsert (nctor nsf GraphProvider.neo4j).2 "group_ids"
            (PValue.strList (x :: y :: t))) from rfl, keys_dictMerge, keys_dictInsert] at h
        rcases h with h | h | h
        · simp [keys] at h
        · exact Or.inl h
        · exact Or.inr (Or.inr h)

theorem keys_build_community_sub (g : Option (List String)) (p : String)
    (h : p ∈ keys (build_community_vector_search_query g).2) :
    p = "group_id" ∨ p = "group_ids" := by
  rcases g with _ | l
  · simp [build_community_vector_search_query, split_group_ids, dictMerge, keys] at h
  · rcases l with _ | ⟨x, xs⟩
    · rw [show (build_community_vector_search_query (some [])).2
        = dictMerge [] [("group_ids", PValue.strList [])] from rfl, keys_dictMerge] at h
      rcases h with h | h
      · simp [keys] at h
      · simp [keys] at h
        exact Or.inr h
    · rcases xs with _ | ⟨y, t⟩
      · rw [show (build_community_vector_search_query (some [x])).2
          = dictMerge [("group_id", PValue.str x)] [] from rfl, keys_dictMerge] at h
        rcases h with h | h
        · simp [keys] at h
          exact Or.inl h
        · simp [keys] at h
      · rw [show (build_community_vector_search_query (some (x :: y :: t))).2
          = dictMerge [] [("group_ids", PValue.strList (x :: y :: t))] from rfl,
          keys_dictMerge] at h
        rcases h with h | h
        · simp [keys] at h
        · simp [keys] at h
          exact Or.inr h

theorem keys_build_edge_sub {τ : Type}
    (ector : τ → GraphProvider → List String × Params) (esf : τ)
    (g : Option (List String)) (su tu : Option String) (p : String)
    (h : p ∈ keys (build_edge_vector_search_query ector esf g su tu).2) :
    p ∈ keys (ector esf GraphProvider.neo4j).2 ∨ p = "group_id" ∨ p = "group_ids" ∨
      p = "source_uuid" ∨ p = "target_uuid" := by
  rcases g with _ | l
  · rcases su with _ | s <;> rcases tu with _ | t
    · rw [show (build_edge_vector_search_query ector esf (none) none none).2
        = dictMerge ([] : Params) ((ector esf GraphProvider.neo4j).2) from rfl,
        keys_dictMerge] at h
      simp only [keys, List.map_nil, List.map_cons, List.not_mem_nil, List.mem_cons,
        List.mem_singleton, false_or, or_false] at h ⊢
      tauto
    · rw [show (build_edge_vector_search_query ector esf (none) none (some t)).2
        = dictMerge ([] : Params) ((ector esf GraphProvider.neo4j).2) from rfl,
        keys_dictMerge] at h
      simp only [keys, List.map_nil, List.map_cons, List.not_mem_nil, List.mem_cons,
        List.mem_singleton, false_or, or_false] at h ⊢
      tauto
    · rw [show (build_edge_vector_search_query ector esf (none) (some s) none).2
        = dictMerge ([] : Params) ((ector esf GraphProvider.neo4j).2) from rfl,
        keys_dictMerge] at h
      simp only [keys, List.map_nil, List.map_cons, List.not_mem_nil, List.mem_cons,
        List.mem_singleton, false_or, or_false] at h ⊢
      tauto
    · rw [show (build_edge_vector_search_query ector esf (none) (some s) (some t)).2
        = dictMerge ([] : Params) ((ector esf GraphProvider.neo4j).2) from rfl,
        keys_dictMerge] at h
      simp only [keys, List.map_nil, List.map_cons, List.not_mem_nil, List.mem_cons,
        List.mem_singleton, false_or, or_false] at h ⊢
      tauto
  · rcases l with _ | ⟨x, xs⟩
    · rcases su with _ | s <;> rcases tu with _ | t
      · rw [show (build_edge_vector_search_query ector esf (some []) none none).2
          = dictMerge ([] : Params) (dictInsert ((ector esf GraphProvider.neo4j).2) "group_ids" (PValue.strList [])) from rfl,
          keys_dictMerge, keys_dictInsert] at h
        simp only [keys, List.map_nil, List.map_cons, List.not_mem_nil, List.mem_cons,
          List.mem_singleton, false_or, or_false] at h ⊢
        tauto
      · rw [show (build_edge_vector_search_query ector esf (some []) none (some t)).2
          = dictMerge ([] : Params) (dictInsert (dictInsert ((ector esf GraphProvider.neo4j).2) "group_ids" (PValue.strList [])) "target_uuid" (PValue.str t)) from rfl,
          keys_dictMerge, keys_dictInsert, keys_dictInsert] at h
        simp only [keys, List.map_nil, List.map_cons, List.not_mem_nil, List.mem_cons,
          List.mem_singleton, false_or, or_false] at h ⊢
        tauto
      · rw [show (build_edge_vector_search_query ector esf (some []) (some s) none).2
          = dictMerge ([] : Params) (dictInsert (dictInsert ((ector esf GraphProvider.neo4j).2) "group_ids" (PValue.strList [])) "source_uuid" (PValue.str s)) from rfl,
          keys_dictMerge, keys_dictInsert, keys_dictInsert] at h
        simp only [keys, List.map_nil, List.map_cons, List.not_mem_nil, List.mem_cons,
          List.mem_singleton, false_or, or_false] at h ⊢
        tauto
      · rw [show (build_edge_vector_search_query ector esf (some []) (some s) (some t)).2
          = dictMerge ([] : Params) (dictInsert (dictInsert (dictInsert ((ector esf GraphProvider.neo4j).2) "group_ids" (PValue.strList [])) "source_uuid" (PValue.str s)) "target_uuid" (PValue.str t)) from rfl,
          keys_dictMerge, keys_dictInsert, keys_dictInsert, keys_dictInsert] at h
        simp only [keys, List.map_nil, List.map_cons, List.not_mem_nil, List.mem_cons,
          List.mem_singleton, false_or, or_false] at h ⊢
        tauto
    · rcases xs with _ | ⟨y, t2⟩
      · rcases su with _ | s <;> rcases tu with _ | t
        · rw [show (build_edge_vector_search_query ector esf (some [x]) none none).2
            = dictMerge [("group_id", PValue.str x)] ((ector esf GraphProvider.neo4j).2) from rfl,
            keys_dictMerge] at h
          simp only [keys, List.map_nil, List.map_cons, List.not_mem_nil, List.mem_cons,
            List.mem_singleton, false_or, or_false] at h ⊢
          tauto
        · rw [show (build_edge_vector_search_query ector esf (some [x]) none (some t)).2
            = dictMerge [("group_id", PValue.str x)] (dictInsert ((ector esf GraphProvider.neo4j).2) "target_uuid" (PValue.str t)) from rfl,
            keys_dictMerge, keys_dictInsert] at h
          simp only [keys, List.map_nil, List.map_cons, List.not_mem_nil, List.mem_cons,
            List.mem_singleton, false_or, or_false] at h ⊢
          tauto
        · rw [show (build_edge_vector_search_query ector esf (some [x]) (some s) none).2
            = dictMerge [("group_id", PValue.str x)] (dictInsert ((ector esf GraphProvider.neo4j).2) "source_uuid" (PValue.str s)) from rfl,
            keys_dictMerge, keys_dictInsert] at h
          simp only [keys, List.map_nil, List.map_cons, List.not_mem_nil, List.mem_cons,
            List.mem_singleton, false_or, or_false] at h ⊢
          tauto
        · rw [show (build_edge_vector_search_query ector esf (some [x]) (some s) (some t)).2
            = dictMerge [("group_id", PValue.str x)] (dictInsert (dictInsert ((ector esf GraphProvider.neo4j).2) "source_uuid" (PValue.str s)) "target_uuid" (PValue.str t)) from rfl,
            keys_dictMerge, keys_dictInsert, keys_dictInsert] at h
          simp only [keys, List.map_nil, List.map_cons, List.not_mem_nil, List.mem_cons,
            List.mem_singleton, false_or, or_false] at h ⊢
          tauto
      · rcases su with _ | s <;> rcases tu with _ | t
        · rw [show (build_edge_vector_search_query ector esf (some (x :: y :: t2)) none none).2
            = dictMerge ([] : Params) (dictInsert ((ector esf GraphProvider.neo4j).2) "group_ids" (PValue.strList (x :: y :: t2))) from rfl,
            keys_dictMerge, keys_dictInsert] at h
          simp only [keys, List.map_nil, List.map_cons, List.not_mem_nil, List.mem_cons,
            List.mem_singleton, false_or, or_false] at h ⊢
          tauto
        · rw [show (build_edge_vector_search_query ector esf (some (x :: y :: t2)) none (some t)).2
            = dictMerge ([] : Params) (dictInsert (dictInsert ((ector esf GraphProvider.neo4j).2) "group_ids" (PValue.strList (x :: y :: t2))) "target_uuid" (PValue.str t)) from rfl,
            keys_dictMerge, keys_dictInsert, keys_dictInsert] at h
          simp only [keys, List.map_nil, List.map_cons, List.not_mem_nil, List.mem_cons,
            List.mem_singleton, false_or, or_false] at h ⊢
          tauto
        · rw [show (build_edge_vector_search_query ector esf (some (x :: y :: t2)) (some s) none).2
            = dictMerge ([] : Params) (dictInsert (dictInsert ((ector esf GraphProvider.neo4j).2) "group_ids" (PValue.strList (x :: y :: t2))) "source_uuid" (PValue.str s)) from rfl,
            keys_dictMerge, keys_dictInsert, keys_dictInsert] at h
          simp only [keys, List.map_nil, List.map_cons, List.not_mem_nil, List.mem_cons,
            List.mem_singleton, false_or, or_false] at h ⊢
          tauto
        · rw [show (build_edge_vector_search_query ector esf (some (x :: y :: t2)) (some s) (some t)).2
            = dictMerge ([] : Params) (dictInsert (dictInsert (dictInsert ((ector esf GraphProvider.neo4j).2) "group_ids" (PValue.strList (x :: y :: t2))) "source_uuid" (PValue.str s)) "target_uuid" (PValue.str t)) from rfl,
            keys_dictMerge, keys_dictInsert, keys_dictInsert, keys_dictInsert] at h
          simp only [keys, List.map_nil, List.map_cons, List.not_mem_nil, List.mem_cons,
            List.mem_singleton, false_or, or_false] at h ⊢
          tauto

theorem refs_text_node (sw sf : String) :
    containsSub "$search_vector" (node_query_text sw sf) ∧
    containsSub "$limit" (node_query_text sw sf) := by
  constructor
  · apply containsSub_node_head
    exact containsSub_append_right _ _ _ (containsSub_append_left _ _ _ (by decide))
  · exact containsSub_node_tail _ _ _ (by decide)

theorem refs_text_community (sw sf : String) :
    containsSub "$search_vector" (community_query_text sw sf) ∧
    containsSub "$limit" (community_query_text sw sf) := by
  constructor
  · apply containsSub_community_head
    exact containsSub_append_right _ _ _ (containsSub_append_left _ _ _ (by decide))
  · exact containsSub_community_tail _ _ _ (by decide)

theorem refs_text_edge (sw sf : String) :
    containsSub "$search_vector" (edge_query_text sw sf) ∧
    containsSub "$limit" (edge_query_text sw sf) := by
  constructor
  · apply containsSub_edge_head
    exact containsSub_append_right _ _ _ (containsSub_append_left _ _ _ (by decide))
  · exact containsSub_edge_tail _ _ _ (by decide)

/-- C4: assuming the filter collaborators do not bind the reserved
execution-layer names, no assembler ever binds `search_vector`, `limit` or
`min_score` in the returned mapping, while the returned text does reference
the placeholders `$search_vector`, `$limit` and `$min_score`. -/
theorem C4_external_params {σ τ : Type}
    (nctor : σ → GraphProvider → List String × Params) (nsf : σ)
    (ector : τ → GraphProvider → List String × Params) (esf : τ)
    (g : Option (List String)) (su tu : Option String)
    (hn : ∀ r ∈ (["search_vector", "limit", "min_score"] : List String),
      r ∉ keys (nctor nsf GraphProvider.neo4j).2)
    (he : ∀ r ∈ (["search_vector", "limit", "min_score"] : List String),
      r ∉ keys (ector esf GraphProvider.neo4j).2) :
    (∀ r ∈ (["search_vector", "limit", "min_score"] : List String),
      r ∉ keys (build_node_vector_search_query nctor nsf g).2 ∧
      r ∉ keys (build_community_vector_search_query g).2 ∧
      r ∉ keys (build_edge_vector_search_query ector esf g su tu).2) ∧
    (containsSub "$search_vector" (build_node_vector_search_query nctor nsf g).1 ∧
      containsSub "$limit" (build_node_vector_search_query nctor nsf g).1 ∧
      containsSub "$min_score" (build_node_vector_search_query nctor nsf g).1) ∧
    (containsSub "$search_vector" (build_community_vector_search_query g).1 ∧
      containsSub "$limit" (build_community_vector_search_query g).1 ∧
      containsSub "$min_score" (build_community_vector_search_query g).1) ∧
    (containsSub "$search_vector" (build_edge_vector_search_query ector esf g su tu).1 ∧
      containsSub "$limit" (build_edge_vector_search_query ector esf g su tu).1 ∧
      containsSub "$min_score" (build_edge_vector_search_query ector esf g su tu).1) := by
  refine ⟨?_, ?_, ?_, ?_⟩
  · intro r hr
    have hr3 : r = "search_vector" ∨ r = "limit" ∨ r = "min_score" := by simpa using hr
    refine ⟨?_, ?_, ?_⟩
    · intro hmem
      rcases keys_build_node_sub nctor nsf g r hmem with h | rfl | rfl
      · exact hn r hr h
      · rcases hr3 with h3 | h3 | h3 <;> exact absurd h3 (by decide)
      · rcases hr3 with h3 | h3 | h3 <;> exact absurd h3 (by decide)
    · intro hmem
      rcases keys_build_community_sub g r hmem with rfl | rfl <;>
        (rcases hr3 with h3 | h3 | h3 <;> exact absurd h3 (by decide))
    · intro hmem
      rcases keys_build_edge_sub ector esf g su tu r hmem with h | rfl | rfl | rfl | rfl
      · exact he r hr h
      · rcases hr3 with h3 | h3 | h3 <;> exact absurd h3 (by decide)
      · rcases hr3 with h3 | h3 | h3 <;> exact absurd h3 (by decide)
      · rcases hr3 with h3 | h3 | h3 <;> exact absurd h3 (by decide)
      · rcases hr3 with h3 | h3 | h3 <;> exact absurd h3 (by decide)
  · obtain ⟨sw, fqs, hsw, het⟩ := node_text_shape nctor nsf g
    rw [het]
    exact ⟨(refs_text_node sw _).1, (refs_text_node sw _).2,
      containsSub_node_scoreF _ _ _ (containsSub_min_score _)⟩
  · obtain ⟨sw, fq, hsw, hfq, het⟩ := community_text_shape g
    rw [het]
    exact ⟨(refs_text_community sw _).1, (refs_text_community sw _).2,
      containsSub_community_scoreF _ _ _ (containsSub_min_score _)⟩
  · obtain ⟨sw, fqs, hsw, het⟩ := edge_text_shape ector esf g su tu
    rw [het]
    exact ⟨(refs_text_edge sw _).1, (refs_text_edge sw _).2,
      containsSub_edge_scoreF _ _ _ (containsSub_min_score _)⟩

/-- C4 witness: the theorem applied at the empty filter collaborators with
no scope and no endpoints. -/
theorem C4_wit :
    (∀ r ∈ (["search_vector", "limit", "min_score"] : List String),
      r ∉ keys ((empty_node_filter_ctor () GraphProvider.neo4j).2)) ∧
    (∀ r ∈ (["search_vector", "limit", "min_score"] : List String),
      r ∉ keys ((empty_edge_filter_ctor () GraphProvider.neo4j).2)) ∧
    containsSub "$search_vector"
      (build_node_vector_search_query empty_node_filter_ctor () none).1 := by
  have h1 : ∀ r ∈ (["search_vector", "limit", "min_score"] : List String),
      r ∉ keys ((empty_node_filter_ctor () GraphProvider.neo4j).2) := by
    intro r _ hmem
    simp [keys, empty_node_filter_ctor] at hmem
  have h2 : ∀ r ∈ (["search_vector", "limit", "min_score"] : List String),
      r ∉ keys ((empty_edge_filter_ctor () GraphProvider.neo4j).2) := by
    intro r _ hmem
    simp [keys, empty_edge_filter_ctor] at hmem
  exact ⟨h1, h2, (C4_external_params empty_node_filter_ctor () empty_edge_filter_ctor ()
    none none none h1 h2).2.1.1⟩

theorem containsSub_score_gt (fq : String) :
    containsSub "score > $min_score" (mk_score_filter fq) := by
  unfold mk_score_filter
  by_cases h : (fq == "") = true
  · rw [if_pos h]; decide
  · rw [if_neg h]
    exact containsSub_append_left _ _ _ (by decide)

/-- C9: every assembler's text is assembled in the fixed order match
pattern, vector-index lookup (carrying the index-scope clause exactly when a
single scope id is present, and the inner `LIMIT $limit`), for edges the
re-match of the relationship pattern, the post-filter containing
`score > $min_score`, the return projection, `ORDER BY score DESC`, and the
final `LIMIT $limit` cap, so `$limit` bounds both the lookup and the final
result. -/
theorem C9_clause_order {σ τ : Type}
    (nctor : σ → GraphProvider → List String × Params) (nsf : σ)
    (ector : τ → GraphProvider → List String × Params) (esf : τ)
    (g : Option (List String)) (su tu : Option String) :
    (∃ sw fqs,
      (build_node_vector_search_query nctor nsf g).1 =
        "\n        MATCH (n:Entity)\n        SEARCH n IN (\n            VECTOR INDEX "
          ++ NEO4J_ENTITY_VECTOR_INDEX
          ++ "\n            FOR $search_vector"
          ++ sw
          ++ "\n            LIMIT $limit\n        ) SCORE AS score\n        "
          ++ mk_score_filter (mk_filter_query fqs)
          ++ "\n        RETURN\n        "
          ++ get_entity_node_return_query GraphProvider.neo4j
          ++ "\n        ORDER BY score DESC\n        LIMIT $limit\n        " ∧
      sw = (if (split_group_ids g).1 = none then ""
        else " WHERE n.group_id = $group_id") ∧
      containsSub "score > $min_score" (mk_score_filter (mk_filter_query fqs))) ∧
    (∃ sw fq,
      (build_community_vector_search_query g).1 =
        "\n        MATCH (c:Community)\n        SEARCH c IN (\n            VECTOR INDEX "
          ++ NEO4J_COMMUNITY_VECTOR_INDEX
          ++ "\n            FOR $search_vector"
          ++ sw
          ++ "\n            LIMIT $limit\n        ) SCORE AS score\n        "
          ++ mk_score_filter fq
          ++ "\n        RETURN\n        "
          ++ COMMUNITY_NODE_RETURN
          ++ "\n        ORDER BY score DESC\n        LIMIT $limit\n        " ∧
      sw = (if (split_group_ids g).1 = none then ""
        else " WHERE c.group_id = $group_id") ∧
      containsSub "score > $min_score" (mk_score_filter fq)) ∧
    (∃ sw fqs,
      (build_edge_vector_search_query ector esf g su tu).1 =
        "\n        MATCH ()-[e:RELATES_TO]-()\n        SEARCH e IN (\n            VECTOR INDEX "
          ++ NEO4J_EDGE_VECTOR_INDEX
          ++ "\n            FOR $search_vector"
          ++ sw
          ++ "\n            LIMIT $limit\n        ) SCORE AS score\n        WITH e, score\n        MATCH (n:Entity)-[e:RELATES_TO]->(m:Entity)\n        "
          ++ mk_score_filter (mk_filter_query fqs)
          ++ "\n        RETURN\n        "
          ++ get_entity_edge_return_query GraphProvider.neo4j
          ++ "\n        ORDER BY score DESC\n        LIMIT $limit\n        " ∧
      sw = (if (split_group_ids g).1 = none then ""
        else " WHERE e.group_id = $group_id") ∧
      containsSub "score > $min_score" (mk_score_filter (mk_filter_query fqs))) := by
  refine ⟨?_, ?_, ?_⟩
  · rcases g with _ | (_ | ⟨x, _ | ⟨y, t⟩⟩)
    · exact ⟨"", _, rfl, by simp [split_group_ids], containsSub_score_gt _⟩
    · exact ⟨"", _, rfl, by simp [split_group_ids], containsSub_score_gt _⟩
    · exact ⟨" WHERE n.group_id = $group_id", _, rfl, by simp [split_group_ids],
        containsSub_score_gt _⟩
    · exact ⟨"", _, rfl, by simp [split_group_ids], containsSub_score_gt _⟩
  · rcases g with _ | (_ | ⟨x, _ | ⟨y, t⟩⟩)
    · exact ⟨"", "", rfl, by simp [split_group_ids], containsSub_score_gt _⟩
    · exact ⟨"", _, rfl, by simp [split_group_ids], containsSub_score_gt _⟩
    · exact ⟨" WHERE c.group_id = $group_id", "", rfl, by simp [split_group_ids],
        containsSub_score_gt _⟩
    · exact ⟨"", _, rfl, by simp [split_group_ids], containsSub_score_gt _⟩
  · rcases g with _ | (_ | ⟨x, _ | ⟨y, t2⟩⟩)
    · rcases su with _ | s <;> rcases tu with _ | t <;>
        exact ⟨"", _, rfl, by simp [split_group_ids], containsSub_score_gt _⟩
    · rcases su with _ | s <;> rcases tu with _ | t <;>
        exact ⟨"", _, rfl, by simp [split_group_ids], containsSub_score_gt _⟩
    · rcases su with _ | s <;> rcases tu with _ | t <;>
        exact ⟨" WHERE e.group_id = $group_id", _, rfl, by simp [split_group_ids],
          containsSub_score_gt _⟩
    · rcases su with _ | s <;> rcases tu with _ | t <;>
        exact ⟨"", _, rfl, by simp [split_group_ids], containsSub_score_gt _⟩

theorem ph_empty : placeholders "" = [] := by decide

theorem ph_sw_n : placeholders " WHERE n.group_id = $group_id" = ["group_id"] := by decide

theorem ph_sw_e : placeholders " WHERE e.group_id = $group_id" = ["group_id"] := by decide

theorem ph_frag_n : placeholders "n.group_id IN $group_ids" = ["group_ids"] := by decide

theorem ph_frag_e : placeholders "e.group_id IN $group_ids" = ["group_ids"] := by decide

theorem ph_frag_src : placeholders "n.uuid = $source_uuid" = ["source_uuid"] := by decide

theorem ph_frag_tgt : placeholders "m.uuid = $target_uuid" = ["target_uuid"] := by decide

/-- C7: assuming the filter collaborator's fragments reference exactly the
keys of its parameter mapping, the set of placeholders in each assembler's
text equals the keys of the returned parameter mapping together with the
externally bound names `search_vector`, `limit` and `min_score`. -/
theorem C7_placeholders_match_keys {σ τ : Type}
    (nctor : σ → GraphProvider → List String × Params) (nsf : σ)
    (ector : τ → GraphProvider → List String × Params) (esf : τ)
    (g : Option (List String)) (su tu : Option String)
    (hn : ∀ q, q ∈ (nctor nsf GraphProvider.neo4j).1.flatMap placeholders ↔
      q ∈ keys (nctor nsf GraphProvider.neo4j).2)
    (he : ∀ q, q ∈ (ector esf GraphProvider.neo4j).1.flatMap placeholders ↔
      q ∈ keys (ector esf GraphProvider.neo4j).2) :
    ∀ p,
    (p ∈ placeholders (build_node_vector_search_query nctor nsf g).1 ↔
      p ∈ keys (build_node_vector_search_query nctor nsf g).2 ∨
      p = "search_vector" ∨ p = "limit" ∨ p = "min_score") ∧
    (p ∈ placeholders (build_community_vector_search_query g).1 ↔
      p ∈ keys (build_community_vector_search_query g).2 ∨
      p = "search_vector" ∨ p = "limit" ∨ p = "min_score") ∧
    (p ∈ placeholders (build_edge_vector_search_query ector esf g su tu).1 ↔
      p ∈ keys (build_edge_vector_search_query ector esf g su tu).2 ∨
      p = "search_vector" ∨ p = "limit" ∨ p = "min_score") := by
  intro p
  refine ⟨?_, ?_, ?_⟩
  · rcases g with _ | (_ | ⟨x, _ | ⟨y, t2⟩⟩)
    · rw [show (build_node_vector_search_query nctor nsf (none)).1
        = node_query_text "" (mk_score_filter (mk_filter_query
          ((nctor nsf GraphProvider.neo4j).1))) from rfl,
        show (build_node_vector_search_query nctor nsf (none)).2
        = dictMerge ([] : Params) ((nctor nsf GraphProvider.neo4j).2) from rfl,
        placeholders_node_text _ _ (Or.inl rfl) (score_filter_head _),
        placeholders_score_filter, keys_dictMerge, ph_empty]
      have h := hn p
      simp only [List.mem_append, List.mem_cons, List.not_mem_nil, List.mem_singleton,
        List.flatMap_append, List.flatMap_cons, List.flatMap_nil, ph_frag_n, ph_frag_e,
        ph_frag_src, ph_frag_tgt, List.append_nil, false_or, or_false,
        show keys ([] : Params) = [] from rfl] at *
      tauto
    · rw [show (build_node_vector_search_query nctor nsf (some [])).1
        = node_query_text "" (mk_score_filter (mk_filter_query
          ((nctor nsf GraphProvider.neo4j).1 ++ ["n.group_id IN $group_ids"]))) from rfl,
        show (build_node_vector_search_query nctor nsf (some [])).2
        = dictMerge ([] : Params) (dictInsert ((nctor nsf GraphProvider.neo4j).2) "group_ids" (PValue.strList [])) from rfl,
        placeholders_node_text _ _ (Or.inl rfl) (score_filter_head _),
        placeholders_score_filter, keys_dictMerge, keys_dictInsert, ph_empty]
      have h := hn p
      simp only [List.mem_append, List.mem_cons, List.not_mem_nil, List.mem_singleton,
        List.flatMap_append, List.flatMap_cons, List.flatMap_nil, ph_frag_n, ph_frag_e,
        ph_frag_src, ph_frag_tgt, List.append_nil, false_or, or_false,
        show keys ([] : Params) = [] from rfl] at *
      tauto
    · rw [show (build_node_vector_search_query nctor nsf (some [x])).1
        = node_query_text " WHERE n.group_id = $group_id" (mk_score_filter (mk_filter_query
          ((nctor nsf GraphProvider.neo4j).1))) from rfl,
        show (build_node_vector_search_query nctor nsf (some [x])).2
        = dictMerge [("group_id", PValue.str x)] ((nctor nsf GraphProvider.neo4j).2) from rfl,
        placeholders_node_text _ _ (Or.inr rfl) (score_filter_head _),
        placeholders_score_filter, keys_dictMerge, ph_sw_n]
      have h := hn p
      simp only [List.mem_append, List.mem_cons, List.not_mem_nil, List.mem_singleton,
        List.flatMap_append, List.flatMap_cons, List.flatMap_nil, ph_frag_n, ph_frag_e,
        ph_frag_src, ph_frag_tgt, List.append_nil, false_or, or_false,
        show keys [("group_id", PValue.str x)] = ["group_id"] from rfl] at *
      tauto
    · rw [show (build_node_vector_search_query nctor nsf (some (x :: y :: t2))).1
        = node_query_text "" (mk_score_filter (mk_filter_query
          ((nctor nsf GraphProvider.neo4j).1 ++ ["n.group_id IN $group_ids"]))) from rfl,
        show (build_node_vector_search_query nctor nsf (some (x :: y :: t2))).2
        = dictMerge ([] : Params) (dictInsert ((nctor nsf GraphProvider.neo4j).2) "group_ids" (PValue.strList (x :: y :: t2))) from rfl,
        placeholders_node_text _ _ (Or.inl rfl) (score_filter_head _),
        placeholders_score_filter, keys_dictMerge, keys_dictInsert, ph_empty]
      have h := hn p
      simp only [List.mem_append, List.mem_cons, List.not_mem_nil, List.mem_singleton,
        List.flatMap_append, List.flatMap_cons, List.flatMap_nil, ph_frag_n, ph_frag_e,
        ph_frag_src, ph_frag_tgt, List.append_nil, false_or, or_false,
        show keys ([] : Params) = [] from rfl] at *
      tauto
  · rcases g with _ | (_ | ⟨x, _ | ⟨y, t2⟩⟩)
    · rw [show (build_community_vector_search_query (none)).1
        = community_query_text "" (mk_score_filter "") from rfl,
        show (build_community_vector_search_query (none)).2
        = dictMerge ([] : Params) (([] : Params)) from rfl,
        show placeholders (community_query_text "" (mk_score_filter ""))
          = ["search_vector", "limit", "min_score", "limit"] from by decide,
        show keys (dictMerge ([] : Params) (([] : Params))) = [] from by decide]
      simp only [List.mem_cons, List.not_mem_nil, List.mem_singleton, false_or, or_false]
      tauto
    · rw [show (build_community_vector_search_query (some [])).1
        = community_query_text "" (mk_score_filter " WHERE c.group_id IN $group_ids") from rfl,
        show (build_community_vector_search_query (some [])).2
        = dictMerge ([] : Params) ([("group_ids", PValue.strList [])]) from rfl,
        show placeholders (community_query_text "" (mk_score_filter " WHERE c.group_id IN $group_ids"))
          = ["search_vector", "limit", "group_ids", "min_score", "limit"] from by decide,
        show keys (dictMerge ([] : Params) ([("group_ids", PValue.strList [])])) = ["group_ids"] from by decide]
      simp only [List.mem_cons, List.not_mem_nil, List.mem_singleton, false_or, or_false]
      tauto
    · rw [show (build_community_vector_search_query (some [x])).1
        = community_query_text " WHERE c.group_id = $group_id" (mk_score_filter "") from rfl,
        show (build_community_vector_search_query (some [x])).2
        = dictMerge [("group_id", PValue.str x)] (([] : Params)) from rfl,
        show placeholders (community_query_text " WHERE c.group_id = $group_id" (mk_score_filter ""))
          = ["search_vector", "group_id", "limit", "min_score", "limit"] from by decide,
        show keys (dictMerge [("group_id", PValue.str x)] (([] : Params))) = ["group_id"] from rfl]
      simp only [List.mem_cons, List.not_mem_nil, List.mem_singleton, false_or, or_false]
      tauto
    · rw [show (build_community_vector_search_query (some (x :: y :: t2))).1
        = community_query_text "" (mk_score_filter " WHERE c.group_id IN $group_ids") from rfl,
        show (build_community_vector_search_query (some (x :: y :: t2))).2
        = dictMerge ([] : Params) ([("group_ids", PValue.strList (x :: y :: t2))]) from rfl,
        show placeholders (community_query_text "" (mk_score_filter " WHERE c.group_id IN $group_ids"))
          = ["search_vector", "limit", "group_ids", "min_score", "limit"] from by decide,
        show keys (dictMerge ([] : Params) ([("group_ids", PValue.strList (x :: y :: t2))])) = ["group_ids"] from rfl]
      simp only [List.mem_cons, List.not_mem_nil, List.mem_singleton, false_or, or_false]
      tauto
  · rcases g with _ | (_ | ⟨x, _ | ⟨y, t2⟩⟩)
    · rcases su with _ | s <;> rcases tu with _ | t
      · rw [show (build_edge_vector_search_query ector esf (none) none none).1
          = edge_query_text "" (mk_score_filter (mk_filter_query
            ((ector esf GraphProvider.neo4j).1))) from rfl,
          show (build_edge_vector_search_query ector esf (none) none none).2
          = dictMerge ([] : Params) ((ector esf GraphProvider.neo4j).2) from rfl,
          placeholders_edge_text _ _ (Or.inl rfl) (score_filter_head _),
          placeholders_score_filter, keys_dictMerge, ph_empty]
        have h := he p
        simp only [List.mem_append, List.mem_cons, List.not_mem_nil, List.mem_singleton,
          List.flatMap_append, List.flatMap_cons, List.flatMap_nil, ph_frag_n, ph_frag_e,
          ph_frag_src, ph_frag_tgt, List.append_nil, false_or, or_false,
          show keys ([] : Params) = [] from rfl] at *
        tauto
      · rw [show (build_edge_vector_search_query ector esf (none) none (some t)).1
          = edge_query_text "" (mk_score_filter (mk_filter_query
            ((ector esf GraphProvider.neo4j).1))) from rfl,
          show (build_edge_vector_search_query ector esf (none) none (some t)).2
          = dictMerge ([] : Params) ((ector esf GraphProvider.neo4j).2) from rfl,
          placeholders_edge_text _ _ (Or.inl rfl) (score_filter_head _),
          placeholders_score_filter, keys_dictMerge, ph_empty]
        have h := he p
        simp only [List.mem_append, List.mem_cons, List.not_mem_nil, List.mem_singleton,
          List.flatMap_append, List.flatMap_cons, List.flatMap_nil, ph_frag_n, ph_frag_e,
          ph_frag_src, ph_frag_tgt, List.append_nil, false_or, or_false,
          show keys ([] : Params) = [] from rfl] at *
        tauto
      · rw [show (build_edge_vector_search_query ector esf (none) (some s) none).1
          = edge_query_text "" (mk_score_filter (mk_filter_query
            ((ector esf GraphProvider.neo4j).1))) from rfl,
          show (build_edge_vector_search_query ector esf (none) (some s) none).2
          = dictMerge ([] : Params) ((ector esf GraphProvider.neo4j).2) from rfl,
          placeholders_edge_text _ _ (Or.inl rfl) (score_filter_head _),
          placeholders_score_filter, keys_dictMerge, ph_empty]
        have h := he p
        simp only [List.mem_append, List.mem_cons, List.not_mem_nil, List.mem_singleton,
          List.flatMap_append, List.flatMap_cons, List.flatMap_nil, ph_frag_n, ph_frag_e,
          ph_frag_src, ph_frag_tgt, List.append_nil, false_or, or_false,
          show keys ([] : Params) = [] from rfl] at *
        tauto
      · rw [show (build_edge_vector_search_query ector esf (none) (some s) (some t)).1
          = edge_query_text "" (mk_score_filter (mk_filter_query
            ((ector esf GraphProvider.neo4j).1))) from rfl,
          show (build_edge_vector_search_query ector esf (none) (some s) (some t)).2
          = dictMerge ([] : Params) ((ector esf GraphProvider.neo4j).2) from rfl,
          placeholders_edge_text _ _ (Or.inl rfl) (score_filter_head _),
          placeholders_score_filter, keys_dictMerge, ph_empty]
        have h := he p
        simp only [List.mem_append, List.mem_cons, List.not_mem_nil, List.mem_singleton,
          List.flatMap_append, List.flatMap_cons, List.flatMap_nil, ph_frag_n, ph_frag_e,
          ph_frag_src, ph_frag_tgt, List.append_nil, false_or, or_false,
          show keys ([] : Params) = [] from rfl] at *
        tauto
    · rcases su with _ | s <;> rcases tu with _ | t
      · rw [show (build_edge_vector_search_query ector esf (some []) none none).1
          = edge_query_text "" (mk_score_filter (mk_filter_query
            ((ector esf GraphProvider.neo4j).1 ++ ["e.group_id IN $group_ids"]))) from rfl,
          show (build_edge_vector_search_query ector esf (some []) none none).2
          = dictMerge ([] : Params) (dictInsert ((ector esf GraphProvider.neo4j).2) "group_ids" (PValue.strList [])) from rfl,
          placeholders_edge_text _ _ (Or.inl rfl) (score_filter_head _),
          placeholders_score_filter, keys_dictMerge, keys_dictInsert, ph_empty]
        have h := he p
        simp only [List.mem_append, List.mem_cons, List.not_mem_nil, List.mem_singleton,
          List.flatMap_append, List.flatMap_cons, List.flatMap_nil, ph_frag_n, ph_frag_e,
          ph_frag_src, ph_frag_tgt, List.append_nil, false_or, or_false,
          show keys ([] : Params) = [] from rfl] at *
        tauto
      · rw [show (build_edge_vector_search_query ector esf (some []) none (some t)).1
          = edge_query_text "" (mk_score_filter (mk_filter_query
            ((ector esf GraphProvider.neo4j).1 ++ ["e.group_id IN $group_ids"] ++ ["m.uuid = $target_uuid"]))) from rfl,
          show (build_edge_vector_search_query ector esf (some []) none (some t)).2
          = dictMerge ([] : Params) (dictInsert (dictInsert ((ector esf GraphProvider.neo4j).2) "group_ids" (PValue.strList [])) "target_uuid" (PValue.str t)) from rfl,
          placeholders_edge_text _ _ (Or.inl rfl) (score_filter_head _),
          placeholders_score_filter, keys_dictMerge, keys_dictInsert, keys_dictInsert, ph_empty]
        have h := he p
        simp only [List.mem_append, List.mem_cons, List.not_mem_nil, List.mem_singleton,
          List.flatMap_append, List.flatMap_cons, List.flatMap_nil, ph_frag_n, ph_frag_e,
          ph_frag_src, ph_frag_tgt, List.append_nil, false_or, or_false,
          show keys ([] : Params) = [] from rfl] at *
        tauto
      · rw [show (build_edge_vector_search_query ector esf (some []) (some s) none).1
          = edge_query_text "" (mk_score_filter (mk_filter_query
            ((ector esf GraphProvider.neo4j).1 ++ ["e.group_id IN $group_ids"] ++ ["n.uuid = $source_uuid"]))) from rfl,
          show (build_edge_vector_search_query ector esf (some []) (some s) none).2
          = dictMerge ([] : Params) (dictInsert (dictInsert ((ector esf GraphProvider.neo4j).2) "group_ids" (PValue.strList [])) "source_uuid" (PValue.str s)) from rfl,
          placeholders_edge_text _ _ (Or.inl rfl) (score_filter_head _),
          placeholders_score_filter, keys_dictMerge, keys_dictInsert, keys_dictInsert, ph_empty]
        have h := he p
        simp only [List.mem_append, List.mem_cons, List.not_mem_nil, List.mem_singleton,
          List.flatMap_append, List.flatMap_cons, List.flatMap_nil, ph_frag_n, ph_frag_e,
          ph_frag_src, ph_frag_tgt, List.append_nil, false_or, or_false,
          show keys ([] : Params) = [] from rfl] at *
        tauto
      · rw [show (build_edge_vector_search_query ector esf (some []) (some s) (some t)).1
          = edge_query_text "" (mk_score_filter (mk_filter_query
            ((ector esf GraphProvider.neo4j).1 ++ ["e.group_id IN $group_ids"] ++ ["n.uuid = $source_uuid"] ++ ["m.uuid = $target_uuid"]))) from rfl,
          show (build_edge_vector_search_query ector esf (some []) (some s) (some t)).2
          = dictMerge ([] : Params) (dictInsert (dictInsert (dictInsert ((ector esf GraphProvider.neo4j).2) "group_ids" (PValue.strList [])) "source_uuid" (PValue.str s)) "target_uuid" (PValue.str t)) from rfl,
          placeholders_edge_text _ _ (Or.inl rfl) (score_filter_head _),
          placeholders_score_filter, keys_dictMerge, keys_dictInsert, keys_dictInsert, keys_dictInsert, ph_empty]
        have h := he p
        simp only [List.mem_append, List.mem_cons, List.not_mem_nil, List.mem_singleton,
          List.flatMap_append, List.flatMap_cons, List.flatMap_nil, ph_frag_n, ph_frag_e,
          ph_frag_src, ph_frag_tgt, List.append_nil, false_or, or_false,
          show keys ([] : Params) = [] from rfl] at *
        tauto
    · rcases su with _ | s <;> rcases tu with _ | t
      · rw [show (build_edge_vector_search_query ector esf (some [x]) none none).1
          = edge_query_text " WHERE e.group_id = $group_id" (mk_score_filter (mk_filter_query
            ((ector esf GraphProvider.neo4j).1))) from rfl,
          show (build_edge_vector_search_query ector esf (some [x]) none none).2
          = dictMerge [("group_id", PValue.str x)] ((ector esf GraphProvider.neo4j).2) from rfl,
          placeholders_edge_text _ _ (Or.inr rfl) (score_filter_head _),
          placeholders_score_filter, keys_dictMerge, ph_sw_e]
        have h := he p
        simp only [List.mem_append, List.mem_cons, List.not_mem_nil, List.mem_singleton,
          List.flatMap_append, List.flatMap_cons, List.flatMap_nil, ph_frag_n, ph_frag_e,
          ph_frag_src, ph_frag_tgt, List.append_nil, false_or, or_false,
          show keys [("group_id", PValue.str x)] = ["group_id"] from rfl] at *
        tauto
      · rw [show (build_edge_vector_search_query ector esf (some [x]) none (some t)).1
          = edge_query_text " WHERE e.group_id = $group_id" (mk_score_filter (mk_filter_query
            ((ector esf GraphProvider.neo4j).1 ++ ["m.uuid = $target_uuid"]))) from rfl,
          show (build_edge_vector_search_query ector esf (some [x]) none (some t)).2
          = dictMerge [("group_id", PValue.str x)] (dictInsert ((ector esf GraphProvider.neo4j).2) "target_uuid" (PValue.str t)) from rfl,
          placeholders_edge_text _ _ (Or.inr rfl) (score_filter_head _),
          placeholders_score_filter, keys_dictMerge, keys_dictInsert, ph_sw_e]
        have h := he p
        simp only [List.mem_append, List.mem_cons, List.not_mem_nil, List.mem_singleton,
          List.flatMap_append, List.flatMap_cons, List.flatMap_nil, ph_frag_n, ph_frag_e,
          ph_frag_src, ph_frag_tgt, List.append_nil, false_or, or_false,
          show keys [("group_id", PValue.str x)] = ["group_id"] from rfl] at *
        tauto
      · rw [show (build_edge_vector_search_query ector esf (some [x]) (some s) none).1
          = edge_query_text " WHERE e.group_id = $group_id" (mk_score_filter (mk_filter_query
            ((ector esf GraphProvider.neo4j).1 ++ ["n.uuid = $source_uuid"]))) from rfl,
          show (build_edge_vector_search_query ector esf (some [x]) (some s) none).2
          = dictMerge [("group_id", PValue.str x)] (dictInsert ((ector esf GraphProvider.neo4j).2) "source_uuid" (PValue.str s)) from rfl,
          placeholders_edge_text _ _ (Or.inr rfl) (score_filter_head _),
          placeholders_score_filter, keys_dictMerge, keys_dictInsert, ph_sw_e]
        have h := he p
        simp only [List.mem_append, List.mem_cons, List.not_mem_nil, List.mem_singleton,
          List.flatMap_append, List.flatMap_cons, List.flatMap_nil, ph_frag_n, ph_frag_e,
          ph_frag_src, ph_frag_tgt, List.append_nil, false_or, or_false,
          show keys [("group_id", PValue.str x)] = ["group_id"] from rfl] at *
        tauto
      · rw [show (build_edge_vector_search_query ector esf (some [x]) (some s) (some t)).1
          = edge_query_text " WHERE e.group_id = $group_id" (mk_score_filter (mk_filter_query
            ((ector esf GraphProvider.neo4j).1 ++ ["n.uuid = $source_uuid"] ++ ["m.uuid = $target_uuid"]))) from rfl,
          show (build_edge_vector_search_query ector esf (some [x]) (some s) (some t)).2
          = dictMerge [("group_id", PValue.str x)] (dictInsert (dictInsert ((ector esf GraphProvider.neo4j).2) "source_uuid" (PValue.str s)) "target_uuid" (PValue.str t)) from rfl,
          placeholders_edge_text _ _ (Or.inr rfl) (score_filter_head _),
          placeholders_score_filter, keys_dictMerge, keys_dictInsert, keys_dictInsert, ph_sw_e]
        have h := he p
        simp only [List.mem_append, List.mem_cons, List.not_mem_nil, List.mem_singleton,
          List.flatMap_append, List.flatMap_cons, List.flatMap_nil, ph_frag_n, ph_frag_e,
          ph_frag_src, ph_frag_tgt, List.append_nil, false_or, or_false,
          show keys [("group_id", PValue.str x)] = ["group_id"] from rfl] at *
        tauto
    · rcases su with _ | s <;> rcases tu with _ | t
      · rw [show (build_edge_vector_search_query ector esf (some (x :: y :: t2)) none none).1
          = edge_query_text "" (mk_score_filter (mk_filter_query
            ((ector esf GraphProvider.neo4j).1 ++ ["e.group_id IN $group_ids"]))) from rfl,
          show (build_edge_vector_search_query ector esf (some (x :: y :: t2)) none none).2
          = dictMerge ([] : Params) (dictInsert ((ector esf GraphProvider.neo4j).2) "group_ids" (PValue.strList (x :: y :: t2))) from rfl,
          placeholders_edge_text _ _ (Or.inl rfl) (score_filter_head _),
          placeholders_score_filter, keys_dictMerge, keys_dictInsert, ph_empty]
        have h := he p
        simp only [List.mem_append, List.mem_cons, List.not_mem_nil, List.mem_singleton,
          List.flatMap_append, List.flatMap_cons, List.flatMap_nil, ph_frag_n, ph_frag_e,
          ph_frag_src, ph_frag_tgt, List.append_nil, false_or, or_false,
          show keys ([] : Params) = [] from rfl] at *
        tauto
      · rw [show (build_edge_vector_search_query ector esf (some (x :: y :: t2)) none (some t)).1
          = edge_query_text "" (mk_score_filter (mk_filter_query
            ((ector esf GraphProvider.neo4j).1 ++ ["e.group_id IN $group_ids"] ++ ["m.uuid = $target_uuid"]))) from rfl,
          show (build_edge_vector_search_query ector esf (some (x :: y :: t2)) none (some t)).2
          = dictMerge ([] : Params) (dictInsert (dictInsert ((ector esf GraphProvider.neo4j).2) "group_ids" (PValue.strList (x :: y :: t2))) "target_uuid" (PValue.str t)) from rfl,
          placeholders_edge_text _ _ (Or.inl rfl) (score_filter_head _),
          placeholders_score_filter, keys_dictMerge, keys_dictInsert, keys_dictInsert, ph_empty]
        have h := he p
        simp only [List.mem_append, List.mem_cons, List.not_mem_nil, List.mem_singleton,
          List.flatMap_append, List.flatMap_cons, List.flatMap_nil, ph_frag_n, ph_frag_e,
          ph_frag_src, ph_frag_tgt, List.append_nil, false_or, or_false,
          show keys ([] : Params) = [] from rfl] at *
        tauto
      · rw [show (build_edge_vector_search_query ector esf (some (x :: y :: t2)) (some s) none).1
          = edge_query_text "" (mk_score_filter (mk_filter_query
            ((ector esf GraphProvider.neo4j).1 ++ ["e.group_id IN $group_ids"] ++ ["n.uuid = $source_uuid"]))) from rfl,
          show (build_edge_vector_search_query ector esf (some (x :: y :: t2)) (some s) none).2
          = dictMerge ([] : Params) (dictInsert (dictInsert ((ector esf GraphProvider.neo4j).2) "group_ids" (PValue.strList (x :: y :: t2))) "source_uuid" (PValue.str s)) from rfl,
          placeholders_edge_text _ _ (Or.inl rfl) (score_filter_head _),
          placeholders_score_filter, keys_dictMerge, keys_dictInsert, keys_dictInsert, ph_empty]
        have h := he p
        simp only [List.mem_append, List.mem_cons, List.not_mem_nil, List.mem_singleton,
          List.flatMap_append, List.flatMap_cons, List.flatMap_nil, ph_frag_n, ph_frag_e,
          ph_frag_src, ph_frag_tgt, List.append_nil, false_or, or_false,
          show keys ([] : Params) = [] from rfl] at *
        tauto
      · rw [show (build_edge_vector_search_query ector esf (some (x :: y :: t2)) (some s) (some t)).1
          = edge_query_text "" (mk_score_filter (mk_filter_query
            ((ector esf GraphProvider.neo4j).1 ++ ["e.group_id IN $group_ids"] ++ ["n.uuid = $source_uuid"] ++ ["m.uuid = $target_uuid"]))) from rfl,
          show (build_edge_vector_search_query ector esf (some (x :: y :: t2)) (some s) (some t)).2
          = dictMerge ([] : Params) (dictInsert (dictInsert (dictInsert ((ector esf GraphProvider.neo4j).2) "group_ids" (PValue.strList (x :: y :: t2))) "source_uuid" (PValue.str s)) "target_uuid" (PValue.str t)) from rfl,
          placeholders_edge_text _ _ (Or.inl rfl) (score_filter_head _),
          placeholders_score_filter, keys_dictMerge, keys_dictInsert, keys_dictInsert, keys_dictInsert, ph_empty]
        have h := he p
        simp only [List.mem_append, List.mem_cons, List.not_mem_nil, List.mem_singleton,
          List.flatMap_append, List.flatMap_cons, List.flatMap_nil, ph_frag_n, ph_frag_e,
          ph_frag_src, ph_frag_tgt, List.append_nil, false_or, or_false,
          show keys ([] : Params) = [] from rfl] at *
        tauto

/-- C7 witness: the theorem applied at the empty filter collaborators, no
scope and no endpoints, evaluated at the placeholder `min_score`. -/
theorem C7_wit :
    (∀ q, q ∈ ((empty_node_filter_ctor () GraphProvider.neo4j).1.flatMap placeholders) ↔
      q ∈ keys ((empty_node_filter_ctor () GraphProvider.neo4j).2)) ∧
    (∀ q, q ∈ ((empty_edge_filter_ctor () GraphProvider.neo4j).1.flatMap placeholders) ↔
      q ∈ keys ((empty_edge_filter_ctor () GraphProvider.neo4j).2)) ∧
    ("min_score" ∈ placeholders
        (build_node_vector_search_query empty_node_filter_ctor () none).1 ↔
      "min_score" ∈ keys (build_node_vector_search_query empty_node_filter_ctor () none).2 ∨
      "min_score" = "search_vector" ∨ "min_score" = "limit" ∨
      "min_score" = "min_score") := by
  have h1 : ∀ q, q ∈ ((empty_node_filter_ctor () GraphProvider.neo4j).1.flatMap placeholders) ↔
      q ∈ keys ((empty_node_filter_ctor () GraphProvider.neo4j).2) := by
    intro q
    simp [empty_node_filter_ctor, keys]
  have h2 : ∀ q, q ∈ ((empty_edge_filter_ctor () GraphProvider.neo4j).1.flatMap placeholders) ↔
      q ∈ keys ((empty_edge_filter_ctor () GraphProvider.neo4j).2) := by
    intro q
    simp [empty_edge_filter_ctor, keys]
  exact ⟨h1, h2, (C7_placeholders_match_keys empty_node_filter_ctor ()
    empty_edge_filter_ctor () none none none h1 h2 "min_score").1⟩
